import Mathlib

/-!
# TopoLVM node service and LVMD start-up: a shallow embedding of
`internal/driver/node.go` and `cmd/lvmd/app/root.go`

The handlers of `nodeServerNoLocked` are translated into functions of a small
state-and-log monad `Sys`; `subMain` of the LVMD command is translated the same
way into the monad `Boot`, with `LvmdDeps` and `LvmdEvent` in the place of
`Deps` and `Event`.  Every call that leaves `node.go` (control-plane
lookup, LVMD client, mount utilities, `os`, `filesystem`, `findmnt`) is a field
of `Deps`: a transition on an arbitrary host state `σ`.  Each such call is
logged, with its arguments and its result, as an `Event`, so that statements
such as "the device is never formatted" are statements about the log.

Conventions: Go's `len(s) == 0` on a string is `s = ""`; an `error` result is an
`Option`, `none` for `nil`; a `(value, error)` result is an `Except`; early
returns become the branches of a `match`; logging is left out.
-/

namespace Topolvm

/-! ## Errors -/

/-- The gRPC status codes that `node.go` produces (`google.golang.org/grpc/codes`). -/
inductive Code
  | InvalidArgument
  | NotFound
  | FailedPrecondition
  | Internal
  deriving DecidableEq, Repr

/-- An `error` value handed to `node.go` by a collaborator.  Besides its text,
the three predicates that `node.go` evaluates on such values are recorded:
`os.IsNotExist(err)`, `errors.Is(err, unix.ENOENT)` and
`errors.Is(err, k8s.ErrVolumeNotFound)`. -/
structure GoError where
  text : String
  isNotExist : Bool
  isENOENT : Bool
  isVolumeNotFound : Bool
  deriving DecidableEq, Repr

/-- The `error` a handler returns.
* `status c format args` is `status.Errorf(c, format, args...)`; `status.Error(c, msg)` is
  `status c msg []`.  The format string is kept verbatim and its arguments are listed in order.
* `passed e` is `return nil, err` for an error received from a collaborator.
* `nilDereference` is the run-time panic of a field access through a nil pointer. -/
inductive Err
  | status (code : Code) (format : String) (args : List String)
  | passed (err : GoError)
  | nilDereference
  deriving DecidableEq, Repr

/-! ## Messages -/

/-- The `csi.VolumeCapability_MountVolume` message. -/
structure MountVolume where
  fsType : String
  mountFlags : List String
  deriving DecidableEq, Repr

/-- The `access_type` oneof of `csi.VolumeCapability`. -/
inductive AccessType
  | Block
  | Mount (m : MountVolume)
  deriving DecidableEq, Repr

/-- The `csi.VolumeCapability` message.  `accessMode` is the `AccessMode` sub-message
(`none` when absent) reduced to its `mode` enum value (an `int32`). -/
structure VolumeCapability where
  accessType : Option AccessType
  accessMode : Option Int
  deriving DecidableEq, Repr

/-- Getter `GetBlock() != nil`, also on a nil capability. -/
def isBlockCap : Option VolumeCapability → Bool
  | some ⟨some AccessType.Block, _⟩ => true
  | _ => false

/-- Getter `GetMount()`, also on a nil capability. -/
def getMount : Option VolumeCapability → Option MountVolume
  | some ⟨some (AccessType.Mount m), _⟩ => some m
  | _ => none

/-- Getter chain `GetAccessMode().GetMode()`: the zero value when the sub-message is absent. -/
def getMode (c : VolumeCapability) : Int :=
  match c.accessMode with
  | some m => m
  | none => 0

/-- The enum value `csi.VolumeCapability_AccessMode_SINGLE_NODE_WRITER`. -/
def SINGLE_NODE_WRITER : Int := 1

/-- The table `csi.VolumeCapability_AccessMode_Mode_name`; a missing key yields the empty string. -/
def AccessMode_Mode_name (m : Int) : String :=
  if m = 0 then "UNKNOWN"
  else if m = 1 then "SINGLE_NODE_WRITER"
  else if m = 2 then "SINGLE_NODE_READER_ONLY"
  else if m = 3 then "MULTI_NODE_READER_ONLY"
  else if m = 4 then "MULTI_NODE_SINGLE_WRITER"
  else if m = 5 then "MULTI_NODE_MULTI_WRITER"
  else if m = 6 then "SINGLE_NODE_SINGLE_WRITER"
  else if m = 7 then "SINGLE_NODE_MULTI_WRITER"
  else ""

/-- The `csi.NodePublishVolumeRequest` fields that `node.go` reads.  `capText` is the `%v`
rendering of the capability, used in one error message only. -/
structure NodePublishVolumeRequest where
  volumeId : String
  targetPath : String
  volumeCapability : Option VolumeCapability
  readonly : Bool
  capText : String
  deriving DecidableEq, Repr

/-- The `csi.NodeUnpublishVolumeRequest` message. -/
structure NodeUnpublishVolumeRequest where
  volumeId : String
  targetPath : String
  deriving DecidableEq, Repr

/-- The `csi.NodeGetVolumeStatsRequest` message. -/
structure NodeGetVolumeStatsRequest where
  volumeId : String
  volumePath : String
  deriving DecidableEq, Repr

/-- The `csi.CapacityRange` message (`int64` fields). -/
structure CapacityRange where
  requiredBytes : Int
  limitBytes : Int
  deriving DecidableEq, Repr

/-- The `csi.NodeExpandVolumeRequest` fields that `node.go` reads. -/
structure NodeExpandVolumeRequest where
  volumeId : String
  volumePath : String
  capacityRange : Option CapacityRange
  volumeCapability : Option VolumeCapability
  deriving DecidableEq, Repr

/-- The `proto.LogicalVolume` fields that `node.go` reads. -/
structure LogicalVolume where
  name : String
  path : String
  attr : String
  deriving DecidableEq, Repr

/-- The control-plane `LogicalVolume` object, reduced to `Spec.DeviceClass`. -/
structure K8sLogicalVolume where
  deviceClass : String
  deriving DecidableEq, Repr

/-- Units of `csi.VolumeUsage`. -/
inductive UsageUnit
  | UNKNOWN
  | BYTES
  | INODES
  deriving DecidableEq, Repr

/-- The `csi.VolumeUsage` message (`int64` fields; unset fields are zero). -/
structure VolumeUsage where
  available : Int
  total : Int
  used : Int
  unit : UsageUnit
  deriving DecidableEq, Repr

/-- The `csi.VolumeCondition` message. -/
structure VolumeCondition where
  abnormal : Bool
  message : String
  deriving DecidableEq, Repr

/-- The `csi.NodeGetVolumeStatsResponse` message; `volumeCondition` is a pointer, `none` when nil. -/
structure NodeGetVolumeStatsResponse where
  usage : List VolumeUsage
  volumeCondition : Option VolumeCondition
  deriving DecidableEq, Repr

/-- The `os.FileInfo` of `os.Stat`, reduced to `IsDir()`. -/
structure FileInfo where
  isDir : Bool
  deriving DecidableEq, Repr

/-- The `unix.Stat_t` of `filesystem.Stat`, reduced to `Mode` (a `uint32`). -/
structure Stat_t where
  mode : Nat
  deriving DecidableEq, Repr

/-- The `unix.Statfs_t` fields that `node.go` reads: `uint64` counters and the `int64` `Frsize`. -/
structure Statfs_t where
  blocks : Nat
  bfree : Nat
  bavail : Nat
  files : Nat
  ffree : Nat
  frsize : Int
  deriving DecidableEq, Repr

/-! ## Calls leaving `node.go` -/

deriving instance DecidableEq for Except

/-- One call that leaves `node.go`, with its arguments and the result it returned.
A call returning only an `error` has result `none` for `nil`. -/
inductive Event
  /-- The call `s.k8sLVService.GetVolume(ctx, volumeID)`. -/
  | GetVolume (volumeID : String) (res : Except GoError K8sLogicalVolume)
  /-- The call `s.client.GetLVList(ctx, ...)` with the request's `DeviceClass`. -/
  | GetLVList (deviceClass : String) (res : Except GoError (List LogicalVolume))
  /-- The call `os.MkdirAll(path, perm)`. -/
  | MkdirAll (path : String) (perm : Nat) (res : Option GoError)
  /-- The call `filesystem.DetectFilesystem(device)`. -/
  | DetectFilesystem (device : String) (res : Except GoError String)
  /-- The call `s.mounter.IsMountPoint(target)`. -/
  | IsMountPoint (target : String) (res : Except GoError Bool)
  /-- The call `s.mounter.FormatAndMount(source, target, fstype, options)`. -/
  | FormatAndMount (source target fstype : String) (options : List String) (res : Option GoError)
  /-- The call `s.mounter.Mount(source, target, fstype, options)`. -/
  | Mount (source target fstype : String) (options : List String) (res : Option GoError)
  /-- The call `os.Chmod(path, mode)`. -/
  | Chmod (path : String) (mode : Nat) (res : Option GoError)
  /-- The call `r.NeedResize(device, target)`: its boolean and its error. -/
  | NeedResize (device target : String) (res : Bool × Option GoError)
  /-- The call `r.Resize(device, target)`: its boolean and its error. -/
  | Resize (device target : String) (res : Bool × Option GoError)
  /-- The call `os.Create(path)`. -/
  | Create (path : String) (res : Option GoError)
  /-- The call `os.Stat(path)`. -/
  | OsStat (path : String) (res : Except GoError FileInfo)
  /-- The call `os.Remove(path)`. -/
  | Remove (path : String) (res : Option GoError)
  /-- The call `mountutil.CleanupMountPoint(path, s.mounter, extensiveCheck)`. -/
  | CleanupMountPoint (path : String) (extensiveCheck : Bool) (res : Option GoError)
  /-- The call `filesystem.Stat(path, &st)`. -/
  | Stat (path : String) (res : Except GoError Stat_t)
  /-- The call `os.Open(path)`. -/
  | Open (path : String) (res : Option GoError)
  /-- The call `f.Seek(0, io.SeekEnd)` on the file opened at `path`. -/
  | SeekEnd (path : String) (res : Except GoError Int)
  /-- The deferred `f.Close()` of the file created or opened at `path`. -/
  | Close (path : String)
  /-- The call `filesystem.Statfs(path, &sfs)`. -/
  | Statfs (path : String) (res : Except GoError Statfs_t)
  /-- The command `findmntCmd args...` run through `s.mounter.Exec`, and its `Output()`. -/
  | Findmnt (cmd : String) (args : List String) (res : Except GoError String)
  deriving DecidableEq

/-- Everything `node.go` uses that lives outside it.  The host (kernel, LVMD, control plane)
has a state of type `σ`; each collaborator call is a transition on it that also yields the
call's result.  The remaining fields are pure helpers and constants of other packages, taken
as parameters; `A` is the type `command.LVAttr`. -/
structure Deps (σ : Type) (A : Type) where
  GetVolume : String → σ → Except GoError K8sLogicalVolume × σ
  GetLVList : String → σ → Except GoError (List LogicalVolume) × σ
  MkdirAll : String → Nat → σ → Option GoError × σ
  DetectFilesystem : String → σ → Except GoError String × σ
  IsMountPoint : String → σ → Except GoError Bool × σ
  FormatAndMount : String → String → String → List String → σ → Option GoError × σ
  Mount : String → String → String → List String → σ → Option GoError × σ
  Chmod : String → Nat → σ → Option GoError × σ
  NeedResize : String → String → σ → (Bool × Option GoError) × σ
  Resize : String → String → σ → (Bool × Option GoError) × σ
  Create : String → σ → Option GoError × σ
  OsStat : String → σ → Except GoError FileInfo × σ
  Remove : String → σ → Option GoError × σ
  CleanupMountPoint : String → Bool → σ → Option GoError × σ
  Stat : String → σ → Except GoError Stat_t × σ
  Open : String → σ → Option GoError × σ
  SeekEnd : String → σ → Except GoError Int × σ
  Close : String → σ → σ
  Statfs : String → σ → Except GoError Statfs_t × σ
  Findmnt : String → List String → σ → Except GoError String × σ
  /-- The function `command.ParsedLVAttr`. -/
  ParsedLVAttr : String → Except GoError A
  /-- The method `command.LVAttr.VerifyHealth`. -/
  VerifyHealth : A → Option GoError
  /-- The function `filepath.Join` on two elements. -/
  Join : String → String → String
  /-- The function `strings.TrimSpace`. -/
  TrimSpace : String → String
  /-- The constant `topolvm.LegacyDeviceDirectory`. -/
  LegacyDeviceDirectory : String
  /-- The constant `topolvm.DefaultDeviceClassName`. -/
  DefaultDeviceClassName : String

/-- A computation on the host: from a host state it yields a value, the next host state and
the calls it made, oldest first. -/
def Sys (σ : Type) (α : Type) : Type := σ → α × σ × List Event

namespace Sys

variable {σ α β : Type}

/-- A computation that makes no call. -/
def ret (a : α) : Sys σ α := fun w => (a, w, [])

/-- Sequencing: the calls of the first computation precede those of the second. -/
def seq (m : Sys σ α) (f : α → Sys σ β) : Sys σ β := fun w =>
  ((f (m w).1 (m w).2.1).1, (f (m w).1 (m w).2.1).2.1, (m w).2.2 ++ (f (m w).1 (m w).2.1).2.2)

/-- One collaborator call `op`, logged as `ev` applied to its result. -/
def call (op : σ → α × σ) (ev : α → Event) : Sys σ α := fun w =>
  ((op w).1, (op w).2, [ev (op w).1])

/-- The value a computation yields from host state `w`. -/
def result (m : Sys σ α) (w : σ) : α := (m w).1

/-- The host state a computation leaves behind from host state `w`. -/
def final (m : Sys σ α) (w : σ) : σ := (m w).2.1

/-- The calls a computation makes from host state `w`, oldest first. -/
def trace (m : Sys σ α) (w : σ) : List Event := (m w).2.2

end Sys

instance {σ : Type} : Monad (Sys σ) where
  pure := Sys.ret
  bind := Sys.seq

/-! ## Filesystem-mode and block-mode publish -/

variable {σ A : Type}

/-- The constant `findmntCmd`. -/
def findmntCmd : String := "/bin/findmnt"

/-- The constant `os.ModeSetgid` of Go's `os.FileMode` (`1 << 22`, the bit below
`os.ModeSetuid`). -/
def ModeSetgid : Nat := 2 ^ 22

/-- Function `toReadOnlyMountOption`: the map literal indexed by `readOnly`. -/
def toReadOnlyMountOption (readOnly : Bool) : List String :=
  if readOnly then ["ro"] else []

/-- The `for _, f := range mountOption.MountFlags` loop of `makeMountOptions`, with the
`mountOptions` built so far as accumulator. -/
def makeMountOptionsLoop (readOnly : Bool) : List String → List String → Except Err (List String)
  | [], mountOptions => .ok mountOptions
  | f :: rest, mountOptions =>
    if f = "rw" ∧ readOnly = true then
      .error (.status .InvalidArgument
        "mount option \"rw\" is specified even though read only mode is specified" [])
    else makeMountOptionsLoop readOnly rest (mountOptions ++ [f])

/-- Function `makeMountOptions`. -/
def makeMountOptions (readOnly : Bool) (mountOption : MountVolume) : Except Err (List String) :=
  match makeMountOptionsLoop readOnly mountOption.mountFlags (toReadOnlyMountOption readOnly) with
  | .error err => .error err
  | .ok mountOptions =>
    if mountOption.fsType = "xfs" then .ok (mountOptions ++ ["nouuid"]) else .ok mountOptions

/-- The mount option block a filesystem publish works with: `GetMount()` with an empty
`FsType` replaced by `"ext4"`. -/
def defaultFsType (m : MountVolume) : MountVolume :=
  if m.fsType = "" then { m with fsType := "ext4" } else m

/-- Method `nodePublishFilesystemVolume`; the result is the returned `error`, `none` for `nil`. -/
def nodePublishFilesystemVolume (d : Deps σ A) (req : NodePublishVolumeRequest)
    (lv : LogicalVolume) : Sys σ (Option Err) :=
  match getMount req.volumeCapability with
  | none => pure (some .nilDereference)
  | some m =>
    let mountOption := defaultFsType m
    match makeMountOptions req.readonly mountOption with
    | .error err => pure (some err)
    | .ok mountOptions => do
      match ← Sys.call (d.MkdirAll req.targetPath 0o755) (.MkdirAll req.targetPath 0o755) with
      | some err => pure (some (.status .Internal "mkdir failed: target=%s, error=%v"
          [req.targetPath, err.text]))
      | none =>
      match ← Sys.call (d.DetectFilesystem lv.path) (.DetectFilesystem lv.path) with
      | .error err => pure (some (.status .Internal "filesystem check failed: volume=%s, error=%v"
          [req.volumeId, err.text]))
      | .ok fsType =>
      if fsType ≠ "" ∧ fsType ≠ mountOption.fsType then
        pure (some (.status .Internal
          "target device is already formatted with different filesystem: volume=%s, current=%s, new:%s"
          [req.volumeId, fsType, mountOption.fsType]))
      else
      match ← Sys.call (d.IsMountPoint req.targetPath) (.IsMountPoint req.targetPath) with
      | .error err => pure (some (.status .Internal "mount check failed: target=%s, error=%v"
          [req.targetPath, err.text]))
      | .ok mounted =>
      let mountStep : Sys σ (Option Err) :=
        if mounted then pure none
        else do
          let mountFunc : Sys σ (Option GoError) :=
            if fsType ≠ "" then
              Sys.call (d.Mount lv.path req.targetPath mountOption.fsType mountOptions)
                (.Mount lv.path req.targetPath mountOption.fsType mountOptions)
            else
              Sys.call (d.FormatAndMount lv.path req.targetPath mountOption.fsType mountOptions)
                (.FormatAndMount lv.path req.targetPath mountOption.fsType mountOptions)
          match ← mountFunc with
          | some err => pure (some (.status .Internal "mount failed: volume=%s, error=%v"
              [req.volumeId, err.text]))
          | none =>
          match ← Sys.call (d.Chmod req.targetPath (0o777 ||| ModeSetgid))
              (.Chmod req.targetPath (0o777 ||| ModeSetgid)) with
          | some err => pure (some (.status .Internal "chmod 2777 failed: target=%s, error=%v"
              [req.targetPath, err.text]))
          | none => pure none
      match ← mountStep with
      | some err => pure (some err)
      | none =>
      match ← Sys.call (d.NeedResize lv.path req.targetPath) (.NeedResize lv.path req.targetPath) with
      | (true, _) =>
        match ← Sys.call (d.Resize lv.path req.targetPath) (.Resize lv.path req.targetPath) with
        | (_, some err) => pure (some (.status .Internal
            "failed to resize filesystem %s (mounted at: %s): %v"
            [req.volumeId, req.targetPath, err.text]))
        | (_, none) => pure none
      | (false, some err) => pure (some (.status .Internal
          "could not determine if fs needed resize after mount: target=%s, error=%v"
          [req.targetPath, err.text]))
      | (false, none) => pure none

/-- Method `nodePublishBlockVolume`; the result is the returned `error`, `none` for `nil`.
The deferred `fi.Close()` runs when the method returns, once the file was created. -/
def nodePublishBlockVolume (d : Deps σ A) (req : NodePublishVolumeRequest)
    (lv : LogicalVolume) : Sys σ (Option Err) := do
  let mountOptions := toReadOnlyMountOption req.readonly ++ ["bind"]
  match ← Sys.call (d.Create req.targetPath) (.Create req.targetPath) with
  | some err => pure (some (.status .Internal "create failed: target=%s, error=%v"
      [req.targetPath, err.text]))
  | none =>
    let body : Sys σ (Option Err) := do
      match ← Sys.call (d.Chmod req.targetPath 0o755) (.Chmod req.targetPath 0o755) with
      | some err => pure (some (.status .Internal "chmod failed: target=%s, error=%v"
          [req.targetPath, err.text]))
      | none =>
      match ← Sys.call (d.Mount lv.path req.targetPath "" mountOptions)
          (.Mount lv.path req.targetPath "" mountOptions) with
      | some err => pure (some (.status .Internal "(bind)mount failed: volume=%s, error=%v"
          [req.volumeId, err.text]))
      | none => pure none
    let err ← body
    let _ ← Sys.call (fun w => ((), d.Close req.targetPath w)) (fun _ => .Close req.targetPath)
    pure err

/-- Method `findVolumeByID`: the first listed volume with the given name, `none` for `nil`. -/
def findVolumeByID : List LogicalVolume → String → Option LogicalVolume
  | [], _ => none
  | v :: rest, name => if v.name = name then some v else findVolumeByID rest name

/-- Method `getLvFromContext`. -/
def getLvFromContext (d : Deps σ A) (deviceClass volumeID : String) :
    Sys σ (Except Err (Option LogicalVolume)) := do
  match ← Sys.call (d.GetLVList deviceClass) (.GetLVList deviceClass) with
  | .error err => pure (.error (.status .Internal "failed to list LV: %v" [err.text]))
  | .ok volumes => pure (.ok (findVolumeByID volumes volumeID))

/-- Method `nodeServerNoLocked.NodePublishVolume`; `.ok ()` is the empty response.
Logging is not modelled. -/
def NodePublishVolume (d : Deps σ A) (req : NodePublishVolumeRequest) : Sys σ (Except Err Unit) :=
  let volumeID := req.volumeId
  if volumeID = "" then
    pure (.error (.status .InvalidArgument "no volume_id is provided" []))
  else if req.targetPath = "" then
    pure (.error (.status .InvalidArgument "no target_path is provided" []))
  else
  match req.volumeCapability with
  | none => pure (.error (.status .InvalidArgument "no volume_capability is provided" []))
  | some cap =>
  let isBlockVol := isBlockCap req.volumeCapability
  let isFsVol := (getMount req.volumeCapability).isSome
  if ¬ (isBlockVol ∨ isFsVol) then
    pure (.error (.status .InvalidArgument "no supported volume capability: %v" [req.capText]))
  else
  let accessMode := getMode cap
  if accessMode ≠ SINGLE_NODE_WRITER then
    let modeName := AccessMode_Mode_name accessMode
    pure (.error (.status .FailedPrecondition "unsupported access mode: %s (%d)"
      [modeName, toString accessMode]))
  else do
  match ← Sys.call (d.GetVolume volumeID) (.GetVolume volumeID) with
  | .error err => pure (.error (.passed err))
  | .ok lvr =>
  match ← getLvFromContext d lvr.deviceClass volumeID with
  | .error err => pure (.error err)
  | .ok none => pure (.error (.status .NotFound "failed to find LV: %s" [volumeID]))
  | .ok (some lv) =>
  let publish : Sys σ (Option Err) :=
    if isBlockVol then nodePublishBlockVolume d req lv
    else if isFsVol then nodePublishFilesystemVolume d req lv
    else pure none
  match ← publish with
  | some err => pure (.error err)
  | none => pure (.ok ())

/-! ## Unpublish -/

/-- Method `nodeUnpublishFilesystemVolume`. -/
def nodeUnpublishFilesystemVolume (d : Deps σ A) (req : NodeUnpublishVolumeRequest) :
    Sys σ (Option Err) := do
  let targetPath := req.targetPath
  match ← Sys.call (d.CleanupMountPoint targetPath true) (.CleanupMountPoint targetPath true) with
  | some err => pure (some (.status .Internal "unmount failed for %s: error=%v"
      [targetPath, err.text]))
  | none => pure none

/-- Method `nodeUnpublishBlockVolume`. -/
def nodeUnpublishBlockVolume (d : Deps σ A) (req : NodeUnpublishVolumeRequest) :
    Sys σ (Option Err) := do
  let targetPath := req.targetPath
  match ← Sys.call (d.CleanupMountPoint targetPath true) (.CleanupMountPoint targetPath true) with
  | some err => pure (some (.status .Internal "unmount failed for %s: error=%v"
      [targetPath, err.text]))
  | none => pure none

/-- Method `nodeServerNoLocked.NodeUnpublishVolume`; `.ok ()` is the empty response.
`os.IsNotExist(err)` is false for a nil `err`. -/
def NodeUnpublishVolume (d : Deps σ A) (req : NodeUnpublishVolumeRequest) :
    Sys σ (Except Err Unit) :=
  let volumeID := req.volumeId
  let targetPath := req.targetPath
  if volumeID = "" then
    pure (.error (.status .InvalidArgument "no volume_id is provided" []))
  else if targetPath = "" then
    pure (.error (.status .InvalidArgument "no target_path is provided" []))
  else do
  match ← Sys.call (d.OsStat targetPath) (.OsStat targetPath) with
  | .error err =>
    if err.isNotExist then do
      let _ ← Sys.call (d.Remove (d.Join d.LegacyDeviceDirectory volumeID))
        (.Remove (d.Join d.LegacyDeviceDirectory volumeID))
      pure (.ok ())
    else
      pure (.error (.status .Internal "stat failed for %s: %v" [targetPath, err.text]))
  | .ok info =>
    let unpublish : Sys σ (Option Err) :=
      if info.isDir then nodeUnpublishFilesystemVolume d req
      else nodeUnpublishBlockVolume d req
    match ← unpublish with
    | some err => pure (.error err)
    | none => pure (.ok ())

/-! ## Volume statistics -/

/-- The constant `unix.S_IFMT`. -/
def S_IFMT : Nat := 0o170000

/-- The constant `unix.S_IFBLK`. -/
def S_IFBLK : Nat := 0o060000

/-- The constant `unix.S_IFDIR`. -/
def S_IFDIR : Nat := 0o040000

/-- Conversion to `int64`, and the result of `int64` arithmetic: the representative of `z`
modulo `2^64` in the range from `-2^63` to `2^63 - 1`. -/
def int64 (z : Int) : Int := (z + 2 ^ 63) % 2 ^ 64 - 2 ^ 63

/-- The result of `uint64` arithmetic: `z` modulo `2^64`. -/
def uint64 (z : Int) : Int := z % 2 ^ 64

/-- Function `getVolumeCondition`.  The error wraps the parser's error with `%w`, which keeps
what `errors.Is` reports and prefixes the text. -/
def getVolumeCondition (d : Deps σ A) (lv : LogicalVolume) : Except GoError VolumeCondition :=
  match d.ParsedLVAttr lv.attr with
  | .error err => .error { err with
      text := "failed to parse attributes returned from logical volume service: " ++ err.text }
  | .ok attr =>
    match d.VerifyHealth attr with
    | some err => .ok { abnormal := true, message := err.text }
    | none => .ok { abnormal := false, message := "volume is healthy and operating normally" }

/-- The `usage` slice that `NodeGetVolumeStats` builds from a `Statfs_t`. -/
def statfsUsage (sfs : Statfs_t) : List VolumeUsage :=
  (if sfs.blocks > 0 then
    [{ unit := .BYTES,
       total := int64 (int64 sfs.blocks * int64 sfs.frsize),
       used := int64 (int64 (uint64 (sfs.blocks - sfs.bfree)) * int64 sfs.frsize),
       available := int64 (int64 sfs.bavail * int64 sfs.frsize) }]
   else []) ++
  (if sfs.files > 0 then
    [{ unit := .INODES,
       total := int64 sfs.files,
       used := int64 (uint64 (sfs.files - sfs.ffree)),
       available := int64 sfs.ffree }]
   else [])

/-- Method `nodeServerNoLocked.NodeGetVolumeStats`.  The deferred `f.Close()` runs when the
method returns, once the file was opened. -/
def NodeGetVolumeStats (d : Deps σ A) (req : NodeGetVolumeStatsRequest) :
    Sys σ (Except Err NodeGetVolumeStatsResponse) :=
  let volumeID := req.volumeId
  let volumePath := req.volumePath
  if volumeID = "" then
    pure (.error (.status .InvalidArgument "no volume_id is provided" []))
  else if volumePath = "" then
    pure (.error (.status .InvalidArgument "no volume_path is provided" []))
  else do
  match ← Sys.call (d.Stat volumePath) (.Stat volumePath) with
  | .error err =>
    if err.isENOENT then
      pure (.error (.status .NotFound ("Volume is not found at " ++ volumePath) []))
    else
      pure (.error (.status .Internal "stat on %s was failed: %v" [volumePath, err.text]))
  | .ok st =>
  if st.mode &&& S_IFMT = S_IFBLK then do
    match ← Sys.call (d.Open volumePath) (.Open volumePath) with
    | some err => pure (.error (.status .Internal "open on %s was failed: %v"
        [volumePath, err.text]))
    | none =>
      let body : Sys σ (Except Err NodeGetVolumeStatsResponse) := do
        match ← Sys.call (d.SeekEnd volumePath) (.SeekEnd volumePath) with
        | .error err => pure (.error (.status .Internal "seek on %s was failed: %v"
            [volumePath, err.text]))
        | .ok pos => pure (.ok {
            usage := [{ total := pos, unit := .BYTES, available := 0, used := 0 }],
            volumeCondition := none })
      let resp ← body
      let _ ← Sys.call (fun w => ((), d.Close volumePath w)) (fun _ => .Close volumePath)
      pure resp
  else if st.mode &&& S_IFDIR = 0 then
    pure (.error (.status .Internal "invalid mode bits for %s: %d"
      [volumePath, toString st.mode]))
  else do
  match ← Sys.call (d.Statfs volumePath) (.Statfs volumePath) with
  | .error err => pure (.error (.status .Internal "statfs on %s was failed: %v"
      [volumePath, err.text]))
  | .ok sfs =>
  let usage := statfsUsage sfs
  match ← Sys.call (d.GetVolume volumeID) (.GetVolume volumeID) with
  | .error err => pure (.error (.passed err))
  | .ok lvr =>
  match ← getLvFromContext d lvr.deviceClass volumeID with
  | .error err => pure (.error err)
  | .ok none => pure (.error (.status .NotFound "failed to find LV: %s" [volumeID]))
  | .ok (some lv) =>
  match getVolumeCondition d lv with
  | .error err => pure (.error (.status .Internal err.text []))
  | .ok volumeCondition =>
    pure (.ok { usage := usage, volumeCondition := some volumeCondition })

/-- The enum `csi.NodeServiceCapability_RPC_Type`, reduced to the values `node.go` names. -/
inductive NodeServiceCapability_RPC_Type
  | GET_VOLUME_STATS
  | EXPAND_VOLUME
  | VOLUME_CONDITION
  deriving DecidableEq, Repr

/-- Method `nodeServerNoLocked.NodeGetCapabilities`: the RPC types of the capabilities it
returns, in order. -/
def NodeGetCapabilities : List NodeServiceCapability_RPC_Type :=
  [.GET_VOLUME_STATS, .EXPAND_VOLUME, .VOLUME_CONDITION]

/-! ## Expansion -/

/-- Modelled from the spec: the function `convertRequestCapacityBytes` is defined in another
file of the driver package.  The spec gives its validation as "validate the capacity range
(`required ≤ limit` when both present; neither may be negative)"; an absent field reads as
zero.  `NodeExpandVolume` discards the converted value, so only the validation is modelled;
the spec does not fix the error texts. -/
def convertRequestCapacityBytes (requestBytes limitBytes : Int) : Except GoError Unit :=
  if requestBytes < 0 then
    .error ⟨"required capacity must not be negative", false, false, false⟩
  else if limitBytes < 0 then
    .error ⟨"capacity limit must not be negative", false, false, false⟩
  else if limitBytes ≠ 0 ∧ requestBytes > limitBytes then
    .error ⟨"requested capacity exceeds limit capacity", false, false, false⟩
  else .ok ()

/-- Getter chain `GetCapacityRange().GetRequiredBytes()`: zero on a nil range. -/
def getRequiredBytes : Option CapacityRange → Int
  | some r => r.requiredBytes
  | none => 0

/-- Getter chain `GetCapacityRange().GetLimitBytes()`: zero on a nil range. -/
def getLimitBytes : Option CapacityRange → Int
  | some r => r.limitBytes
  | none => 0

/-- Method `nodeServerNoLocked.NodeExpandVolume`; `.ok ()` is the empty response. -/
def NodeExpandVolume (d : Deps σ A) (req : NodeExpandVolumeRequest) : Sys σ (Except Err Unit) :=
  let volumeID := req.volumeId
  let volumePath := req.volumePath
  if volumeID = "" then
    pure (.error (.status .InvalidArgument "no volume_id is provided" []))
  else if volumePath = "" then
    pure (.error (.status .InvalidArgument "no volume_path is provided" []))
  else
  match convertRequestCapacityBytes (getRequiredBytes req.capacityRange)
      (getLimitBytes req.capacityRange) with
  | .error err => pure (.error (.status .InvalidArgument err.text []))
  | .ok _ =>
  if isBlockCap req.volumeCapability then
    pure (.ok ())
  else
  let withDeviceClass (deviceClass : String) : Sys σ (Except Err Unit) := do
    match ← getLvFromContext d deviceClass volumeID with
    | .error err => pure (.error err)
    | .ok none => pure (.error (.status .NotFound "failed to find LV: %s" [volumeID]))
    | .ok (some lv) =>
    let args := ["-o", "source", "--noheadings", "--target", req.volumePath]
    match ← Sys.call (d.Findmnt findmntCmd args) (.Findmnt findmntCmd args) with
    | .error err => pure (.error (.status .Internal "findmnt error occurred: %v" [err.text]))
    | .ok output =>
    let devicePath := d.TrimSpace output
    if devicePath = "" then
      pure (.error (.status .Internal "filesystem %s is not mounted at %s" [volumeID, volumePath]))
    else
    match ← Sys.call (d.Resize lv.path volumePath) (.Resize lv.path volumePath) with
    | (_, some err) => pure (.error (.status .Internal
        "failed to resize filesystem %s (mounted at: %s): %v" [volumeID, volumePath, err.text]))
    | (_, none) => pure (.ok ())
  do
  match ← Sys.call (d.GetVolume volumeID) (.GetVolume volumeID) with
  | .ok lvr => withDeviceClass lvr.deviceClass
  | .error err =>
    if err.isVolumeNotFound then withDeviceClass d.DefaultDeviceClassName
    else pure (.error (.passed err))

/-! ## LVMD startup (`cmd/lvmd/app/root.go`) -/

/-- The `lvmdTypes.ThinPoolConfig` fields that `root.go` reads. -/
structure ThinPoolConfig where
  name : String
  deriving DecidableEq, Repr

/-- The `lvmdTypes.DeviceClass` fields that `root.go` reads.  `type` is the `DeviceType`
string; `thinPoolConfig` is a pointer, `none` when nil. -/
structure DeviceClass where
  name : String
  volumeGroup : String
  type : String
  thinPoolConfig : Option ThinPoolConfig
  deriving DecidableEq, Repr

/-- Modelled from the spec: the constant `lvmdTypes.TypeThin` is declared outside the sources
at hand; the spec's configuration grammar writes the two device types as `thick` and `thin`. -/
def TypeThin : String := "thin"

/-- The package variable `config` after `loadConfFile`, reduced to the fields `subMain` reads. -/
structure Config where
  socketName : String
  deviceClasses : List DeviceClass
  deriving DecidableEq, Repr

/-- The package variables that the command-line flags set. -/
structure Flags where
  cfgFilePath : String
  lvmPath : String
  profilingBindAddress : String
  deriving DecidableEq, Repr

/-- One call that leaves `root.go`, with its arguments and the result it returned; `V` is the
type `command.VolumeGroup`. -/
inductive LvmdEvent (V : Type)
  /-- The call `command.SetLVMPath(lvmPath)`. -/
  | SetLVMPath (lvmPath : String)
  /-- The call `loadConfFile(parentCtx, cfgFilePath)` and the `config` it leaves. -/
  | LoadConfFile (cfgFilePath : String) (res : Except GoError Config)
  /-- The call `command.ListVolumeGroups(parentCtx)`. -/
  | ListVolumeGroups (res : Except GoError (List V))
  /-- The call `vg.FindPool(parentCtx, name)`, reduced to its error. -/
  | FindPool (vg : V) (name : String) (res : Option GoError)
  /-- The call `os.Remove(config.SocketName)`. -/
  | Remove (path : String) (res : Option GoError)
  /-- The call `net.Listen(network, address)`, reduced to its error. -/
  | Listen (network address : String) (res : Option GoError)
  /-- Everything after the listener exists: the gRPC server with its services, the signal
  context, the profiling server and the ticker goroutine, and the blocking
  `grpcServer.Serve(lis)` whose error is the result. -/
  | Serve (config : Config) (profilingBindAddress : String) (res : Option GoError)
  deriving DecidableEq

/-- Everything `subMain` uses that lives outside `root.go`, over a host state `σ`. -/
structure LvmdDeps (σ : Type) (V : Type) where
  SetLVMPath : String → σ → σ
  LoadConfFile : String → σ → Except GoError Config × σ
  /-- The function `lvmd.ValidateDeviceClasses`. -/
  ValidateDeviceClasses : List DeviceClass → Option GoError
  ListVolumeGroups : σ → Except GoError (List V) × σ
  /-- The function `command.SearchVolumeGroupList`. -/
  SearchVolumeGroupList : List V → String → Except GoError V
  FindPool : V → String → σ → Option GoError × σ
  Remove : String → σ → Option GoError × σ
  Listen : String → String → σ → Option GoError × σ
  Serve : Config → String → σ → Option GoError × σ

/-- A computation of the daemon start-up on the host: a value, the next host state and the
calls made, oldest first. -/
def Boot (σ V α : Type) : Type := σ → α × σ × List (LvmdEvent V)

namespace Boot

variable {V α β : Type}

/-- A computation that makes no call. -/
def ret (a : α) : Boot σ V α := fun w => (a, w, [])

/-- Sequencing: the calls of the first computation precede those of the second. -/
def seq (m : Boot σ V α) (f : α → Boot σ V β) : Boot σ V β := fun w =>
  ((f (m w).1 (m w).2.1).1, (f (m w).1 (m w).2.1).2.1, (m w).2.2 ++ (f (m w).1 (m w).2.1).2.2)

/-- One collaborator call `op`, logged as `ev` applied to its result. -/
def call (op : σ → α × σ) (ev : α → LvmdEvent V) : Boot σ V α := fun w =>
  ((op w).1, (op w).2, [ev (op w).1])

/-- The value a computation yields from host state `w`. -/
def result (m : Boot σ V α) (w : σ) : α := (m w).1

/-- The host state a computation leaves behind from host state `w`. -/
def final (m : Boot σ V α) (w : σ) : σ := (m w).2.1

/-- The calls a computation makes from host state `w`, oldest first. -/
def trace (m : Boot σ V α) (w : σ) : List (LvmdEvent V) := (m w).2.2

end Boot

instance {σ V : Type} : Monad (Boot σ V) where
  pure := Boot.ret
  bind := Boot.seq

variable {V : Type}

/-- The `for _, dc := range config.DeviceClasses` loop of `subMain`; the result is the error
the loop returns with, `none` when it runs to its end. -/
def checkDeviceClasses (d : LvmdDeps σ V) (vgs : List V) :
    List DeviceClass → Boot σ V (Option Err)
  | [] => pure none
  | dc :: rest =>
    match d.SearchVolumeGroupList vgs dc.volumeGroup with
    | .error err => pure (some (.passed err))
    | .ok vg =>
      if dc.type = TypeThin then
        match dc.thinPoolConfig with
        | none => pure (some .nilDereference)
        | some pool => do
          match ← Boot.call (d.FindPool vg pool.name) (.FindPool vg pool.name) with
          | some err => pure (some (.passed err))
          | none => checkDeviceClasses d vgs rest
      else checkDeviceClasses d vgs rest

/-- The part of `subMain` from `net.Listen` on. -/
def listenAndServe (d : LvmdDeps σ V) (flags : Flags) (config : Config) :
    Boot σ V (Option Err) := do
  match ← Boot.call (d.Listen "unix" config.socketName) (.Listen "unix" config.socketName) with
  | some err => pure (some (.passed err))
  | none =>
  match ← Boot.call (d.Serve config flags.profilingBindAddress)
      (.Serve config flags.profilingBindAddress) with
  | some err => pure (some (.passed err))
  | none => pure none

/-- Function `subMain`; the result is the returned `error`, `none` for `nil`.  Logging is not
modelled. -/
def subMain (d : LvmdDeps σ V) (flags : Flags) : Boot σ V (Option Err) := do
  let _ ← Boot.call (fun w => ((), d.SetLVMPath flags.lvmPath w))
    (fun _ => .SetLVMPath flags.lvmPath)
  match ← Boot.call (d.LoadConfFile flags.cfgFilePath) (.LoadConfFile flags.cfgFilePath) with
  | .error err => pure (some (.passed err))
  | .ok config =>
  match d.ValidateDeviceClasses config.deviceClasses with
  | some err => pure (some (.passed err))
  | none =>
  match ← Boot.call d.ListVolumeGroups .ListVolumeGroups with
  | .error err => pure (some (.passed err))
  | .ok vgs =>
  match ← checkDeviceClasses d vgs config.deviceClasses with
  | some err => pure (some err)
  | none =>
  match ← Boot.call (d.Remove config.socketName) (.Remove config.socketName) with
  | some err =>
    if err.isNotExist then listenAndServe d flags config else pure (some (.passed err))
  | none => listenAndServe d flags config

/-! ## Concrete hosts and requests

Hosts without state of their own (`σ = Unit`): every call answers the same way each time. -/

/-- A host on which every call succeeds: the device carries no filesystem, the target is not
a mount point, the volume path is a directory, and the one volume `v1` is healthy. -/
def freshHost : Deps Unit Unit where
  GetVolume := fun _ w => (.ok ⟨"ssd"⟩, w)
  GetLVList := fun _ w => (.ok [⟨"v1", "/dev/myvg/v1", "-wi-ao----"⟩], w)
  MkdirAll := fun _ _ w => (none, w)
  DetectFilesystem := fun _ w => (.ok "", w)
  IsMountPoint := fun _ w => (.ok false, w)
  FormatAndMount := fun _ _ _ _ w => (none, w)
  Mount := fun _ _ _ _ w => (none, w)
  Chmod := fun _ _ w => (none, w)
  NeedResize := fun _ _ w => ((false, none), w)
  Resize := fun _ _ w => ((true, none), w)
  Create := fun _ w => (none, w)
  OsStat := fun _ w => (.ok ⟨true⟩, w)
  Remove := fun _ w => (none, w)
  CleanupMountPoint := fun _ _ w => (none, w)
  Stat := fun _ w => (.ok ⟨S_IFDIR ||| 0o755⟩, w)
  Open := fun _ w => (none, w)
  SeekEnd := fun _ w => (.ok 1073741824, w)
  Close := fun _ w => w
  Statfs := fun _ w => (.ok ⟨100, 40, 30, 10, 4, 4096⟩, w)
  Findmnt := fun _ _ w => (.ok "/dev/myvg/v1\n", w)
  ParsedLVAttr := fun _ => .ok ()
  VerifyHealth := fun _ => none
  Join := fun a b => a ++ "/" ++ b
  TrimSpace := String.trim
  LegacyDeviceDirectory := "/dev/topolvm"
  DefaultDeviceClassName := "ssd"

/-- The error of a path that does not exist. -/
def enoent : GoError := ⟨"no such file or directory", true, true, false⟩

/-- The error of a control-plane lookup that finds no object. -/
def volumeNotFound : GoError := ⟨"VolumeID is not found", false, false, true⟩

/-- An error that none of the three predicates recognises. -/
def ioFailure : GoError := ⟨"input/output error", false, false, false⟩

/-- As `freshHost`, but the device already carries an ext4 filesystem. -/
def ext4Host : Deps Unit Unit :=
  { freshHost with DetectFilesystem := fun _ w => (.ok "ext4", w) }

/-- As `freshHost`, but the device already carries an xfs filesystem. -/
def xfsHost : Deps Unit Unit :=
  { freshHost with DetectFilesystem := fun _ w => (.ok "xfs", w) }

/-- A host whose device carries ext4 and whose target is already a mount point. -/
def mountedExt4Host : Deps Unit Unit :=
  { freshHost with
    DetectFilesystem := fun _ w => (.ok "ext4", w)
    IsMountPoint := fun _ w => (.ok true, w) }

/-- A host whose device carries xfs and whose target is already a mount point. -/
def mountedXfsHost : Deps Unit Unit :=
  { freshHost with
    DetectFilesystem := fun _ w => (.ok "xfs", w)
    IsMountPoint := fun _ w => (.ok true, w) }

/-- A host on which the volume path is a block device. -/
def blockHost : Deps Unit Unit :=
  { freshHost with Stat := fun _ w => (.ok ⟨S_IFBLK ||| 0o660⟩, w) }

/-- A host on which no path exists and removing the legacy device path fails. -/
def absentHost : Deps Unit Unit :=
  { freshHost with
    OsStat := fun _ w => (.error enoent, w)
    Stat := fun _ w => (.error enoent, w)
    Remove := fun _ w => (some ioFailure, w) }

/-- A host whose control plane has no object for the volume. -/
def orphanHost : Deps Unit Unit :=
  { freshHost with GetVolume := fun _ w => (.error volumeNotFound, w) }

/-- The logical volume `v1`. -/
def lv1 : LogicalVolume := ⟨"v1", "/dev/myvg/v1", "-wi-ao----"⟩

/-- A filesystem publish of `v1` at `/mnt/v1` with the default fs type, single-node writer. -/
def fsPublish : NodePublishVolumeRequest :=
  ⟨"v1", "/mnt/v1", some ⟨some (.Mount ⟨"", []⟩), some 1⟩, false, ""⟩

/-- A filesystem publish of `v1` at `/mnt/v1` with access mode `MULTI_NODE_READER_ONLY`. -/
def readerPublish : NodePublishVolumeRequest :=
  ⟨"v1", "/mnt/v1", some ⟨some (.Mount ⟨"", []⟩), some 3⟩, false, ""⟩

/-- A block expansion of `v1` with required bytes above the limit. -/
def blockExpandBadRange : NodeExpandVolumeRequest :=
  ⟨"v1", "/mnt/blk", some ⟨2, 1⟩, some ⟨some .Block, some 1⟩⟩

/-- A block expansion of `v1` with a valid capacity range. -/
def blockExpand : NodeExpandVolumeRequest :=
  ⟨"v1", "/mnt/blk", some ⟨1, 2⟩, some ⟨some .Block, some 1⟩⟩

/-- A filesystem expansion of `v1` with a valid capacity range. -/
def fsExpand : NodeExpandVolumeRequest :=
  ⟨"v1", "/mnt/v1", some ⟨1, 2⟩, some ⟨some (.Mount ⟨"ext4", []⟩), some 1⟩⟩

/-- A volume group of the demonstration host: its name and the names of its thin pools. -/
structure DemoVG where
  name : String
  pools : List String
  deriving DecidableEq, Repr

/-- The error of a lookup that finds nothing. -/
def errNotFound : GoError := ⟨"not found", false, false, false⟩

/-- A host with the volume groups `myvg1` (no pool) and `myvg2` (pool `pool0`), loading the
given configuration, accepting every configuration that gives each thin class a pool, and
with no socket file left over. -/
def lvmdHost (config : Config) : LvmdDeps Unit DemoVG where
  SetLVMPath := fun _ w => w
  LoadConfFile := fun _ w => (.ok config, w)
  ValidateDeviceClasses := fun dcs =>
    if dcs.all (fun dc => dc.type ≠ TypeThin || dc.thinPoolConfig.isSome) then none
    else some ⟨"thin pool config should be specified", false, false, false⟩
  ListVolumeGroups := fun w => (.ok [⟨"myvg1", []⟩, ⟨"myvg2", ["pool0"]⟩], w)
  SearchVolumeGroupList := fun vgs name =>
    match vgs.find? (fun vg => vg.name = name) with
    | some vg => .ok vg
    | none => .error errNotFound
  FindPool := fun vg name w => (if name ∈ vg.pools then none else some errNotFound, w)
  Remove := fun _ w => (some enoent, w)
  Listen := fun _ _ w => (none, w)
  Serve := fun _ _ w => (none, w)

/-- The flags left at their defaults. -/
def defaultFlags : Flags := ⟨"/etc/topolvm/lvmd.yaml", "", ""⟩

/-- The configuration of the spec's example: a thick class on `myvg1`, a thin one on `myvg2`. -/
def goodConfig : Config :=
  ⟨"/run/topolvm/lvmd.sock",
   [⟨"ssd", "myvg1", "thick", none⟩, ⟨"fast", "myvg2", "thin", some ⟨"pool0"⟩⟩]⟩

/-- A configuration whose second class names a volume group the host does not have. -/
def unknownVGConfig : Config :=
  ⟨"/run/topolvm/lvmd.sock",
   [⟨"ssd", "myvg1", "thick", none⟩, ⟨"hdd", "myvg9", "thick", none⟩]⟩

/-- A configuration whose thin class names a pool its volume group does not have. -/
def unknownPoolConfig : Config :=
  ⟨"/run/topolvm/lvmd.sock",
   [⟨"ssd", "myvg1", "thick", none⟩, ⟨"fast", "myvg2", "thin", some ⟨"pool7"⟩⟩]⟩

/-- The constant `unix.S_IFSOCK`. -/
def S_IFSOCK : Nat := 0o140000

/-- The constant `unix.S_IFLNK`. -/
def S_IFLNK : Nat := 0o120000

/-- The constant `unix.S_IFREG`. -/
def S_IFREG : Nat := 0o100000

/-- The constant `unix.S_IFCHR`. -/
def S_IFCHR : Nat := 0o020000

/-- The constant `unix.S_IFIFO`. -/
def S_IFIFO : Nat := 0o010000

/-- A host on which the volume path is a UNIX-domain socket. -/
def socketHost : Deps Unit Unit :=
  { freshHost with Stat := fun _ w => (.ok ⟨S_IFSOCK ||| 0o755⟩, w) }

/-- A filesystem report with no blocks and `2^63` inodes, none of them free. -/
def hugeInodesStatfs : Statfs_t := ⟨0, 0, 0, 2 ^ 63, 0, 4096⟩

/-- A filesystem report with a negative fragment size. -/
def negativeFrsizeStatfs : Statfs_t := ⟨2, 1, 1, 0, 0, -1⟩

/-- As `freshHost`, but the filesystem reports `hugeInodesStatfs`. -/
def hugeInodesHost : Deps Unit Unit :=
  { freshHost with Statfs := fun _ w => (.ok hugeInodesStatfs, w) }

/-- As `freshHost`, but the attribute string of the listed volume does not parse. -/
def badAttrHost : Deps Unit Unit :=
  { freshHost with
    ParsedLVAttr := fun raw => .error ⟨raw ++ " is an invalid length lv_attr", false, false, false⟩ }

/-- As `freshHost`, but the filesystem reports `negativeFrsizeStatfs`. -/
def negativeFrsizeHost : Deps Unit Unit :=
  { freshHost with Statfs := fun _ w => (.ok negativeFrsizeStatfs, w) }

/-! ## The log and the result of composed computations -/

section Lemmas

variable {α β : Type}

theorem Sys.trace_bind (m : Sys σ α) (f : α → Sys σ β) (w : σ) :
    (m >>= f).trace w = m.trace w ++ (f (m.result w)).trace (m.final w) := rfl

theorem Sys.result_bind (m : Sys σ α) (f : α → Sys σ β) (w : σ) :
    (m >>= f).result w = (f (m.result w)).result (m.final w) := rfl

theorem Sys.final_bind (m : Sys σ α) (f : α → Sys σ β) (w : σ) :
    (m >>= f).final w = (f (m.result w)).final (m.final w) := rfl

theorem Sys.trace_pure (a : α) (w : σ) : (pure a : Sys σ α).trace w = [] := rfl

theorem Sys.result_pure (a : α) (w : σ) : (pure a : Sys σ α).result w = a := rfl

theorem Sys.final_pure (a : α) (w : σ) : (pure a : Sys σ α).final w = w := rfl

theorem Sys.trace_call (op : σ → α × σ) (ev : α → Event) (w : σ) :
    (Sys.call op ev).trace w = [ev (op w).1] := rfl

theorem Sys.result_call (op : σ → α × σ) (ev : α → Event) (w : σ) :
    (Sys.call op ev).result w = (op w).1 := rfl

theorem Sys.final_call (op : σ → α × σ) (ev : α → Event) (w : σ) :
    (Sys.call op ev).final w = (op w).2 := rfl

/-- The flag loop fails exactly on `rw` under read-only, and otherwise appends the flags in
their order to what was built before. -/
theorem makeMountOptionsLoop_eq (readOnly : Bool) (flags acc : List String) :
    makeMountOptionsLoop readOnly flags acc =
      if readOnly = true ∧ "rw" ∈ flags then
        .error (.status .InvalidArgument
          "mount option \"rw\" is specified even though read only mode is specified" [])
      else .ok (acc ++ flags) := by
  induction flags generalizing acc with
  | nil => simp [makeMountOptionsLoop]
  | cons f rest ih =>
    unfold makeMountOptionsLoop
    by_cases h : f = "rw" ∧ readOnly = true
    · simp [h]
    · rw [if_neg h, ih]
      by_cases h2 : readOnly = true ∧ "rw" ∈ rest
      · have h3 : readOnly = true ∧ "rw" ∈ f :: rest := ⟨h2.1, List.mem_cons_of_mem _ h2.2⟩
        rw [if_pos h2, if_pos h3]
      · have h3 : ¬ (readOnly = true ∧ "rw" ∈ f :: rest) := by
          rintro ⟨hr, hm⟩
          rcases List.mem_cons.mp hm with hm | hm
          · exact h ⟨hm.symm, hr⟩
          · exact h2 ⟨hr, hm⟩
        rw [if_neg h2, if_neg h3, List.append_assoc, List.singleton_append]

/-- A capability with a mount access type is not a block capability. -/
theorem isBlockCap_of_getMount (c : Option VolumeCapability) (m : MountVolume)
    (h : getMount c = some m) : isBlockCap c = false := by
  unfold getMount at h
  split at h
  · rfl
  · exact absurd h (by simp)

end Lemmas

/-! ## Filesystem publish: formatting, mount-point check, filesystem mismatch -/

/-- C1. In a filesystem-mode publish whose probe of a device returned a non-empty label,
`FormatAndMount` is never called; moreover the publish fails, or finds the target already a
mount point and calls no `Mount`, or calls the plain `Mount` of the LV's device on the target
with the detected type. -/
theorem nodePublishFilesystemVolume_labelled_device_not_formatted
    (d : Deps σ A) (req : NodePublishVolumeRequest) (lv : LogicalVolume) (w : σ)
    (device fsType : String) (hne : fsType ≠ "")
    (hprobe : Event.DetectFilesystem device (.ok fsType) ∈
      (nodePublishFilesystemVolume d req lv).trace w) :
    (∀ s t f o r, Event.FormatAndMount s t f o r ∉ (nodePublishFilesystemVolume d req lv).trace w) ∧
    ((nodePublishFilesystemVolume d req lv).result w ≠ none ∨
     (Event.IsMountPoint req.targetPath (.ok true) ∈ (nodePublishFilesystemVolume d req lv).trace w ∧
       ∀ s t f o r, Event.Mount s t f o r ∉ (nodePublishFilesystemVolume d req lv).trace w) ∨
     (∃ o r, Event.Mount lv.path req.targetPath fsType o r ∈
       (nodePublishFilesystemVolume d req lv).trace w)) := by
  revert hprobe
  unfold nodePublishFilesystemVolume
  simp only []
  repeat' (first
    | split
    | simp only [Sys.trace_bind, Sys.result_bind, Sys.final_bind, Sys.trace_call,
        Sys.result_call, Sys.final_call, Sys.trace_pure, Sys.result_pure, Sys.final_pure])
  all_goals simp_all

/-- C1 at `ext4Host`: the device carries ext4, and the publish of `v1` does not format. -/
theorem nodePublishFilesystemVolume_labelled_device_not_formatted_witness :
    "ext4" ≠ "" ∧
    Event.DetectFilesystem "/dev/myvg/v1" (.ok "ext4") ∈
      (nodePublishFilesystemVolume ext4Host fsPublish lv1).trace () ∧
    (∀ s t f o r, Event.FormatAndMount s t f o r ∉
      (nodePublishFilesystemVolume ext4Host fsPublish lv1).trace ()) ∧
    Event.Mount "/dev/myvg/v1" "/mnt/v1" "ext4" [] none ∈
      (nodePublishFilesystemVolume ext4Host fsPublish lv1).trace () :=
  ⟨by decide, by decide,
   (nodePublishFilesystemVolume_labelled_device_not_formatted ext4Host fsPublish lv1 ()
      "/dev/myvg/v1" "ext4" (by decide) (by decide)).1,
   by decide⟩

/-- C2 as stated fails: on `mountedXfsHost` the target is already a mount point, yet the
publish of `v1` with the default type ext4 returns an error, raised by the mismatch check
that precedes the mount-point check. -/
theorem nodePublishFilesystemVolume_mounted_mismatch_counterexample :
    (mountedXfsHost.IsMountPoint fsPublish.targetPath ()).1 = .ok true ∧
    (nodePublishFilesystemVolume mountedXfsHost fsPublish lv1).result () =
      some (.status .Internal
        "target device is already formatted with different filesystem: volume=%s, current=%s, new:%s"
        ["v1", "xfs", "ext4"]) ∧
    (nodePublishFilesystemVolume mountedXfsHost fsPublish lv1).trace () =
      [.MkdirAll "/mnt/v1" 0o755 none, .DetectFilesystem "/dev/myvg/v1" (.ok "xfs")] := by
  decide

/-- C2, amended. In a filesystem-mode publish in which every mount-point check of the target
answers that it is a mount point, nothing is formatted, nothing is mounted and no mode is
changed.  Once the probe of the LV's device has returned a label, the mount step is passed
with success (the mount-point check is made and the resize check follows) if the label is
empty or equals the requested type, ext4 standing for an empty one; if the label is non-empty
and differs, the publish fails with `Internal`. -/
theorem nodePublishFilesystemVolume_mounted_no_change
    (d : Deps σ A) (req : NodePublishVolumeRequest) (lv : LogicalVolume) (w : σ)
    (hmounted : ∀ r, Event.IsMountPoint req.targetPath r ∈
      (nodePublishFilesystemVolume d req lv).trace w → r = .ok true) :
    (∀ s t f o r, Event.FormatAndMount s t f o r ∉ (nodePublishFilesystemVolume d req lv).trace w) ∧
    (∀ s t f o r, Event.Mount s t f o r ∉ (nodePublishFilesystemVolume d req lv).trace w) ∧
    (∀ p m r, Event.Chmod p m r ∉ (nodePublishFilesystemVolume d req lv).trace w) ∧
    (∀ m label, getMount req.volumeCapability = some m →
      Event.DetectFilesystem lv.path (.ok label) ∈ (nodePublishFilesystemVolume d req lv).trace w →
      (((label = "" ∨ label = (defaultFsType m).fsType) →
        Event.IsMountPoint req.targetPath (.ok true) ∈
          (nodePublishFilesystemVolume d req lv).trace w ∧
        ∃ r, Event.NeedResize lv.path req.targetPath r ∈
          (nodePublishFilesystemVolume d req lv).trace w) ∧
       ((label ≠ "" ∧ label ≠ (defaultFsType m).fsType) →
        (nodePublishFilesystemVolume d req lv).result w = some (.status .Internal
          "target device is already formatted with different filesystem: volume=%s, current=%s, new:%s"
          [req.volumeId, label, (defaultFsType m).fsType])))) := by
  obtain ⟨t, ht⟩ : ∃ t, (nodePublishFilesystemVolume d req lv).trace w = t := ⟨_, rfl⟩
  obtain ⟨res, hr⟩ : ∃ res, (nodePublishFilesystemVolume d req lv).result w = res := ⟨_, rfl⟩
  rw [ht] at hmounted
  rw [ht, hr]
  have h := And.intro ht hr
  clear ht hr
  unfold nodePublishFilesystemVolume at h
  simp only [] at h
  repeat' (first
    | split at h
    | simp only [Sys.trace_bind, Sys.result_bind, Sys.final_bind, Sys.trace_call,
        Sys.result_call, Sys.final_call, Sys.trace_pure, Sys.result_pure, Sys.final_pure] at h)
  all_goals (obtain ⟨rfl, rfl⟩ := h)
  all_goals simp_all

/-- C2, amended, at `mountedExt4Host`: the second publish of `v1` succeeds and its calls are
the directory creation, the probe, the mount-point check and the resize check. -/
theorem nodePublishFilesystemVolume_mounted_no_change_witness :
    (∀ r, Event.IsMountPoint fsPublish.targetPath r ∈
      (nodePublishFilesystemVolume mountedExt4Host fsPublish lv1).trace () → r = .ok true) ∧
    (∀ s t f o r, Event.Mount s t f o r ∉
      (nodePublishFilesystemVolume mountedExt4Host fsPublish lv1).trace ()) ∧
    (nodePublishFilesystemVolume mountedExt4Host fsPublish lv1).result () = none ∧
    (nodePublishFilesystemVolume mountedExt4Host fsPublish lv1).trace () =
      [.MkdirAll "/mnt/v1" 0o755 none, .DetectFilesystem "/dev/myvg/v1" (.ok "ext4"),
       .IsMountPoint "/mnt/v1" (.ok true), .NeedResize "/dev/myvg/v1" "/mnt/v1" (false, none)] :=
  have hm : ∀ r, Event.IsMountPoint fsPublish.targetPath r ∈
      (nodePublishFilesystemVolume mountedExt4Host fsPublish lv1).trace () → r = .ok true := by
    intro r hr
    have ht : (nodePublishFilesystemVolume mountedExt4Host fsPublish lv1).trace () =
        [.MkdirAll "/mnt/v1" 0o755 none, .DetectFilesystem "/dev/myvg/v1" (.ok "ext4"),
         .IsMountPoint "/mnt/v1" (.ok true),
         .NeedResize "/dev/myvg/v1" "/mnt/v1" (false, none)] := by decide
    rw [ht] at hr
    simp only [List.mem_cons, List.mem_singleton, reduceCtorEq, false_or, Event.IsMountPoint.injEq,
      List.not_mem_nil, or_false] at hr
    exact hr.2
  ⟨hm, (nodePublishFilesystemVolume_mounted_no_change mountedExt4Host fsPublish lv1 () hm).2.1,
   by decide, by decide⟩

/-! ## Mount options -/

/-- C3. `makeMountOptions readOnly m` fails with `InvalidArgument` exactly when `readOnly`
holds and the mount flags of `m` contain `rw`; in every other case it returns `ro` if
`readOnly`, then the mount flags of `m` in their order, then `nouuid` exactly when the fs type
of `m` is `xfs`. -/
theorem makeMountOptions_spec (readOnly : Bool) (m : MountVolume) :
    makeMountOptions readOnly m =
      if readOnly = true ∧ "rw" ∈ m.mountFlags then
        .error (.status .InvalidArgument
          "mount option \"rw\" is specified even though read only mode is specified" [])
      else
        .ok ((if readOnly = true then ["ro"] else []) ++ m.mountFlags ++
          (if m.fsType = "xfs" then ["nouuid"] else [])) := by
  unfold makeMountOptions
  rw [makeMountOptionsLoop_eq]
  by_cases h : readOnly = true ∧ "rw" ∈ m.mountFlags
  · rw [if_pos h, if_pos h]
  · rw [if_neg h, if_neg h]
    by_cases hx : m.fsType = "xfs" <;> simp [hx, toReadOnlyMountOption]

/-! ## Publish: access mode -/

/-- C4. A `NodePublishVolume` request with a non-empty volume id, a non-empty target path and
a block or mount capability whose access mode is not `SINGLE_NODE_WRITER` fails with
`FailedPrecondition`, having made no call at all and left the host as it was. -/
theorem NodePublishVolume_access_mode_precondition
    (d : Deps σ A) (req : NodePublishVolumeRequest) (w : σ) (cap : VolumeCapability)
    (hid : req.volumeId ≠ "") (htarget : req.targetPath ≠ "")
    (hcap : req.volumeCapability = some cap)
    (htype : isBlockCap (some cap) = true ∨ (getMount (some cap)).isSome = true)
    (hmode : getMode cap ≠ SINGLE_NODE_WRITER) :
    (NodePublishVolume d req).result w = .error (.status .FailedPrecondition
      "unsupported access mode: %s (%d)"
      [AccessMode_Mode_name (getMode cap), toString (getMode cap)]) ∧
    (NodePublishVolume d req).trace w = [] ∧
    (NodePublishVolume d req).final w = w := by
  have htype2 : ¬ ¬ (isBlockCap (some cap) = true ∨ (getMount (some cap)).isSome = true) :=
    not_not.mpr htype
  unfold NodePublishVolume
  simp only [hcap, if_neg hid, if_neg htarget, if_neg htype2, if_pos hmode]
  exact ⟨rfl, rfl, rfl⟩

/-- C4 at `readerPublish`, whose access mode is `MULTI_NODE_READER_ONLY`. -/
theorem NodePublishVolume_access_mode_precondition_witness :
    readerPublish.volumeId ≠ "" ∧ readerPublish.targetPath ≠ "" ∧
    getMode ⟨some (.Mount ⟨"", []⟩), some 3⟩ ≠ SINGLE_NODE_WRITER ∧
    (NodePublishVolume freshHost readerPublish).result () = .error (.status .FailedPrecondition
      "unsupported access mode: %s (%d)" ["MULTI_NODE_READER_ONLY", "3"]) ∧
    (NodePublishVolume freshHost readerPublish).trace () = [] :=
  ⟨by decide, by decide, by decide,
   (NodePublishVolume_access_mode_precondition freshHost readerPublish ()
      ⟨some (.Mount ⟨"", []⟩), some 3⟩ (by decide) (by decide) rfl (Or.inr rfl) (by decide)).1,
   (NodePublishVolume_access_mode_precondition freshHost readerPublish ()
      ⟨some (.Mount ⟨"", []⟩), some 3⟩ (by decide) (by decide) rfl (Or.inr rfl) (by decide)).2.1⟩

/-! ## Publish: filesystem mismatch -/

/-- C5 as stated fails: on `xfsHost` the probe detects xfs while ext4 is requested, and the
error of the publish carries the code `Internal`, not `FailedPrecondition`. -/
theorem nodePublishFilesystemVolume_mismatch_code_counterexample :
    (xfsHost.DetectFilesystem lv1.path ()).1 = .ok "xfs" ∧
    (defaultFsType ⟨"", []⟩).fsType = "ext4" ∧
    (nodePublishFilesystemVolume xfsHost fsPublish lv1).result () =
      some (.status .Internal
        "target device is already formatted with different filesystem: volume=%s, current=%s, new:%s"
        ["v1", "xfs", "ext4"]) ∧
    Code.Internal ≠ Code.FailedPrecondition := by
  decide

/-- C5, amended. In a filesystem-mode publish whose probe detects a non-empty label different
from the requested fs type, ext4 standing for an empty one, the publish fails with code
`Internal`, and its only calls are the directory creation and the probe. -/
theorem nodePublishFilesystemVolume_mismatch_internal
    (d : Deps σ A) (req : NodePublishVolumeRequest) (lv : LogicalVolume) (w : σ)
    (m : MountVolume) (device label : String)
    (hm : getMount req.volumeCapability = some m)
    (hne : label ≠ "") (hdiff : label ≠ (defaultFsType m).fsType)
    (hprobe : Event.DetectFilesystem device (.ok label) ∈
      (nodePublishFilesystemVolume d req lv).trace w) :
    (nodePublishFilesystemVolume d req lv).result w = some (.status .Internal
      "target device is already formatted with different filesystem: volume=%s, current=%s, new:%s"
      [req.volumeId, label, (defaultFsType m).fsType]) ∧
    (nodePublishFilesystemVolume d req lv).trace w =
      [.MkdirAll req.targetPath 0o755 none, .DetectFilesystem lv.path (.ok label)] := by
  revert hprobe
  unfold nodePublishFilesystemVolume
  simp only []
  repeat' (first
    | split
    | simp only [Sys.trace_bind, Sys.result_bind, Sys.final_bind, Sys.trace_call,
        Sys.result_call, Sys.final_call, Sys.trace_pure, Sys.result_pure, Sys.final_pure])
  all_goals simp_all

/-- C5, amended, at `xfsHost` with a read-only publish requesting ext4 explicitly. -/
theorem nodePublishFilesystemVolume_mismatch_internal_witness :
    getMount (some ⟨some (.Mount ⟨"ext4", ["noatime"]⟩), some 1⟩) = some ⟨"ext4", ["noatime"]⟩ ∧
    "xfs" ≠ "" ∧ "xfs" ≠ (defaultFsType ⟨"ext4", ["noatime"]⟩).fsType ∧
    (nodePublishFilesystemVolume xfsHost
      ⟨"v1", "/mnt/v1", some ⟨some (.Mount ⟨"ext4", ["noatime"]⟩), some 1⟩, true, ""⟩ lv1).result () =
      some (.status .Internal
        "target device is already formatted with different filesystem: volume=%s, current=%s, new:%s"
        ["v1", "xfs", "ext4"]) :=
  ⟨rfl, by decide, by decide,
   (nodePublishFilesystemVolume_mismatch_internal xfsHost
      ⟨"v1", "/mnt/v1", some ⟨some (.Mount ⟨"ext4", ["noatime"]⟩), some 1⟩, true, ""⟩ lv1 ()
      ⟨"ext4", ["noatime"]⟩ "/dev/myvg/v1" "xfs" rfl (by decide) (by decide) (by decide)).1⟩

/-! ## Volume statistics: the volume condition -/

/-- The condition that `getVolumeCondition` derives is abnormal exactly when the attribute
string parses and the parsed attribute fails its health verification. -/
theorem getVolumeCondition_abnormal_iff (d : Deps σ A) (lv : LogicalVolume)
    (cond : VolumeCondition) (h : getVolumeCondition d lv = .ok cond) :
    cond.abnormal = true ↔
      ∃ attr, d.ParsedLVAttr lv.attr = .ok attr ∧ (d.VerifyHealth attr).isSome = true := by
  unfold getVolumeCondition at h
  split at h
  · exact absurd h (by simp)
  · rename_i attr hattr
    split at h
    · rename_i err herr
      simp only [Except.ok.injEq] at h
      subst h
      exact ⟨fun _ => ⟨attr, hattr, by rw [herr]; rfl⟩, fun _ => rfl⟩
    · rename_i hnone
      simp only [Except.ok.injEq] at h
      subst h
      constructor
      · intro hf
        exact absurd hf (by simp)
      · rintro ⟨a, ha, hs⟩
        rw [hattr] at ha
        cases ha
        rw [hnone] at hs
        exact absurd hs (by simp)

/-- On a directory volume path, where `Statfs` is called, a successful response carries the
condition that `getVolumeCondition` derives from a listed LV. -/
theorem NodeGetVolumeStats_directory_condition (d : Deps σ A)
    (req : NodeGetVolumeStatsRequest) (w : σ) (resp : NodeGetVolumeStatsResponse)
    (sfs : Except GoError Statfs_t)
    (hdir : Event.Statfs req.volumePath sfs ∈ (NodeGetVolumeStats d req).trace w)
    (hok : (NodeGetVolumeStats d req).result w = .ok resp) :
    ∃ lv cond, getVolumeCondition d lv = .ok cond ∧ resp.volumeCondition = some cond := by
  revert hdir hok
  unfold NodeGetVolumeStats getLvFromContext
  simp only []
  repeat' (first
    | split
    | simp only [Sys.trace_bind, Sys.result_bind, Sys.final_bind, Sys.trace_call,
        Sys.result_call, Sys.final_call, Sys.trace_pure, Sys.result_pure, Sys.final_pure])
  all_goals simp_all [Sys.result_pure]
  all_goals (intro _ hresp; subst hresp; exact ⟨_, _, by assumption, rfl⟩)

/-- C6 fails on the block-device path.  On `blockHost` the volume path of `v1` is a block
device: the call succeeds with the device size as its only usage entry and with no volume
condition at all, and it makes neither a control-plane lookup nor an LV listing, so no
attribute string is ever looked at; the node service nevertheless advertises the
`VOLUME_CONDITION` capability. -/
theorem NodeGetVolumeStats_block_no_condition :
    NodeServiceCapability_RPC_Type.VOLUME_CONDITION ∈ NodeGetCapabilities ∧
    (blockHost.Stat "/mnt/blk" ()).1 = .ok ⟨S_IFBLK ||| 0o660⟩ ∧
    (NodeGetVolumeStats blockHost ⟨"v1", "/mnt/blk"⟩).result () =
      .ok { usage := [{ available := 0, total := 1073741824, used := 0, unit := .BYTES }],
            volumeCondition := none } ∧
    (NodeGetVolumeStats blockHost ⟨"v1", "/mnt/blk"⟩).trace () =
      [.Stat "/mnt/blk" (.ok ⟨S_IFBLK ||| 0o660⟩), .Open "/mnt/blk" none,
       .SeekEnd "/mnt/blk" (.ok 1073741824), .Close "/mnt/blk"] := by
  decide

/-! ## Expansion -/

/-- C7 as stated fails: `blockExpandBadRange` is a block-capability request with both ids
set, yet it is rejected with `InvalidArgument`, because the capacity range is validated
before the capability is looked at. -/
theorem NodeExpandVolume_block_invalid_range_counterexample :
    isBlockCap blockExpandBadRange.volumeCapability = true ∧
    blockExpandBadRange.volumeId ≠ "" ∧ blockExpandBadRange.volumePath ≠ "" ∧
    (NodeExpandVolume freshHost blockExpandBadRange).result () =
      .error (.status .InvalidArgument "requested capacity exceeds limit capacity" []) ∧
    (NodeExpandVolume freshHost blockExpandBadRange).result () ≠ .ok () := by
  decide

/-- C7, amended. For a `NodeExpandVolume` request with a non-empty volume id and volume path:
a capacity range that fails validation is rejected with `InvalidArgument` whatever the
capability, block included; a block-capability request whose range is valid (neither bound
negative, required at most the limit when a limit is set) is a no-operation returning the
empty response.  Neither case makes any call or changes the host. -/
theorem NodeExpandVolume_block_noop_when_range_valid
    (d : Deps σ A) (req : NodeExpandVolumeRequest) (w : σ)
    (hid : req.volumeId ≠ "") (hpath : req.volumePath ≠ "") :
    (∀ err, convertRequestCapacityBytes (getRequiredBytes req.capacityRange)
        (getLimitBytes req.capacityRange) = .error err →
      (NodeExpandVolume d req).result w = .error (.status .InvalidArgument err.text []) ∧
      (NodeExpandVolume d req).trace w = [] ∧ (NodeExpandVolume d req).final w = w) ∧
    (isBlockCap req.volumeCapability = true →
      0 ≤ getRequiredBytes req.capacityRange → 0 ≤ getLimitBytes req.capacityRange →
      (getLimitBytes req.capacityRange = 0 ∨
        getRequiredBytes req.capacityRange ≤ getLimitBytes req.capacityRange) →
      (NodeExpandVolume d req).result w = .ok () ∧
      (NodeExpandVolume d req).trace w = [] ∧ (NodeExpandVolume d req).final w = w) := by
  constructor
  · intro err herr
    unfold NodeExpandVolume
    simp only [if_neg hid, if_neg hpath, herr]
    exact ⟨rfl, rfl, rfl⟩
  · intro hblock hreq hlim hrange
    have hconv : convertRequestCapacityBytes (getRequiredBytes req.capacityRange)
        (getLimitBytes req.capacityRange) = .ok () := by
      unfold convertRequestCapacityBytes
      rw [if_neg (not_lt.mpr hreq), if_neg (not_lt.mpr hlim), if_neg]
      rintro ⟨h0, hgt⟩
      rcases hrange with h | h
      · exact h0 h
      · exact absurd hgt (not_lt.mpr h)
    unfold NodeExpandVolume
    simp only [if_neg hid, if_neg hpath, hconv, if_pos hblock]
    exact ⟨rfl, rfl, rfl⟩

/-- C7, amended, at `blockExpand` (required 1, limit 2): the empty response and no call. -/
theorem NodeExpandVolume_block_noop_when_range_valid_witness :
    blockExpand.volumeId ≠ "" ∧ blockExpand.volumePath ≠ "" ∧
    isBlockCap blockExpand.volumeCapability = true ∧
    (NodeExpandVolume freshHost blockExpand).result () = .ok () ∧
    (NodeExpandVolume freshHost blockExpand).trace () = [] :=
  ⟨by decide, by decide, rfl,
   ((NodeExpandVolume_block_noop_when_range_valid freshHost blockExpand ()
      (by decide) (by decide)).2 rfl (by decide) (by decide) (Or.inr (by decide))).1,
   ((NodeExpandVolume_block_noop_when_range_valid freshHost blockExpand ()
      (by decide) (by decide)).2 rfl (by decide) (by decide) (Or.inr (by decide))).2.1⟩

/-- C8. For a mount-capability `NodeExpandVolume` request that passes argument validation:
if the control-plane lookup succeeds, the second call lists the LVs of the object's device
class; if it fails with the volume-not-found error, the second call lists the LVs of the
default device class; in both cases no other listing follows.  Any other lookup error is
returned as it is, the lookup being the only call made. -/
theorem NodeExpandVolume_device_class_resolution
    (d : Deps σ A) (req : NodeExpandVolumeRequest) (w : σ) (m : MountVolume)
    (hid : req.volumeId ≠ "") (hpath : req.volumePath ≠ "")
    (hmount : getMount req.volumeCapability = some m)
    (hvalid : convertRequestCapacityBytes (getRequiredBytes req.capacityRange)
      (getLimitBytes req.capacityRange) = .ok ()) :
    (∀ lvr, (d.GetVolume req.volumeId w).1 = .ok lvr →
      ((NodeExpandVolume d req).trace w).take 2 =
        [.GetVolume req.volumeId (.ok lvr),
         .GetLVList lvr.deviceClass (d.GetLVList lvr.deviceClass (d.GetVolume req.volumeId w).2).1] ∧
      ∀ dc r, Event.GetLVList dc r ∉ ((NodeExpandVolume d req).trace w).drop 2) ∧
    (∀ err, (d.GetVolume req.volumeId w).1 = .error err → err.isVolumeNotFound = true →
      ((NodeExpandVolume d req).trace w).take 2 =
        [.GetVolume req.volumeId (.error err),
         .GetLVList d.DefaultDeviceClassName
           (d.GetLVList d.DefaultDeviceClassName (d.GetVolume req.volumeId w).2).1] ∧
      ∀ dc r, Event.GetLVList dc r ∉ ((NodeExpandVolume d req).trace w).drop 2) ∧
    (∀ err, (d.GetVolume req.volumeId w).1 = .error err → err.isVolumeNotFound = false →
      (NodeExpandVolume d req).result w = .error (.passed err) ∧
      (NodeExpandVolume d req).trace w = [.GetVolume req.volumeId (.error err)]) := by
  have hblock : ¬ (isBlockCap req.volumeCapability = true) := by
    rw [isBlockCap_of_getMount _ _ hmount]; simp
  obtain ⟨t, ht⟩ : ∃ t, (NodeExpandVolume d req).trace w = t := ⟨_, rfl⟩
  obtain ⟨res, hr⟩ : ∃ res, (NodeExpandVolume d req).result w = res := ⟨_, rfl⟩
  rw [ht, hr]
  have h := And.intro ht hr
  clear ht hr
  unfold NodeExpandVolume getLvFromContext at h
  simp only [if_neg hid, if_neg hpath, hvalid, if_neg hblock] at h
  repeat' (first
    | split at h
    | simp only [Sys.trace_bind, Sys.result_bind, Sys.final_bind, Sys.trace_call,
        Sys.result_call, Sys.final_call, Sys.trace_pure, Sys.result_pure, Sys.final_pure] at h)
  all_goals (obtain ⟨rfl, rfl⟩ := h)
  all_goals simp_all [Sys.result_pure]

/-- C8 at `orphanHost`, whose control plane reports the volume as not found: the LVs are
listed under the default device class and the expansion goes on to `findmnt` and the resize. -/
theorem NodeExpandVolume_device_class_resolution_witness :
    fsExpand.volumeId ≠ "" ∧ fsExpand.volumePath ≠ "" ∧
    getMount fsExpand.volumeCapability = some ⟨"ext4", []⟩ ∧
    convertRequestCapacityBytes (getRequiredBytes fsExpand.capacityRange)
      (getLimitBytes fsExpand.capacityRange) = .ok () ∧
    (orphanHost.GetVolume fsExpand.volumeId ()).1 = .error volumeNotFound ∧
    ((NodeExpandVolume orphanHost fsExpand).trace ()).take 2 =
      [.GetVolume "v1" (.error volumeNotFound),
       .GetLVList orphanHost.DefaultDeviceClassName (.ok [lv1])] :=
  ⟨by decide, by decide, rfl, by decide, rfl,
   ((NodeExpandVolume_device_class_resolution orphanHost fsExpand () ⟨"ext4", []⟩
      (by decide) (by decide) rfl (by decide)).2.1 volumeNotFound rfl rfl).1⟩

/-! ## Volume statistics: a failing stat -/

/-- C9. For a `NodeGetVolumeStats` request with a non-empty volume id and volume path whose
stat fails: the call fails with `NotFound` if the failure is `ENOENT` and with `Internal`
otherwise, and the stat is the only call made. -/
theorem NodeGetVolumeStats_stat_failure
    (d : Deps σ A) (req : NodeGetVolumeStatsRequest) (w : σ) (err : GoError)
    (hid : req.volumeId ≠ "") (hpath : req.volumePath ≠ "")
    (hstat : (d.Stat req.volumePath w).1 = .error err) :
    (NodeGetVolumeStats d req).result w =
      (if err.isENOENT = true then
        .error (.status .NotFound ("Volume is not found at " ++ req.volumePath) [])
       else
        .error (.status .Internal "stat on %s was failed: %v" [req.volumePath, err.text])) ∧
    (NodeGetVolumeStats d req).trace w = [.Stat req.volumePath (.error err)] := by
  unfold NodeGetVolumeStats
  simp only [if_neg hid, if_neg hpath, Sys.trace_bind, Sys.result_bind, Sys.final_bind,
    Sys.trace_call, Sys.result_call, Sys.final_call, hstat]
  by_cases h : err.isENOENT = true
  · rw [if_pos h, if_pos h]
    exact ⟨rfl, rfl⟩
  · rw [if_neg h, if_neg h]
    exact ⟨rfl, rfl⟩

/-- C9 at `absentHost`, where the volume path does not exist. -/
theorem NodeGetVolumeStats_stat_failure_witness :
    (absentHost.Stat "/mnt/v1" ()).1 = .error enoent ∧
    (NodeGetVolumeStats absentHost ⟨"v1", "/mnt/v1"⟩).result () =
      .error (.status .NotFound "Volume is not found at /mnt/v1" []) ∧
    (NodeGetVolumeStats absentHost ⟨"v1", "/mnt/v1"⟩).trace () =
      [.Stat "/mnt/v1" (.error enoent)] :=
  ⟨rfl,
   (NodeGetVolumeStats_stat_failure absentHost ⟨"v1", "/mnt/v1"⟩ () enoent
      (by decide) (by decide) rfl).1,
   (NodeGetVolumeStats_stat_failure absentHost ⟨"v1", "/mnt/v1"⟩ () enoent
      (by decide) (by decide) rfl).2⟩

/-! ## Unpublish of an absent target -/

/-- C10. For a `NodeUnpublishVolume` request with a non-empty volume id and target path whose
target does not exist: the call returns success; its calls are the stat and the removal of
the legacy device path, whatever that removal returns, so no mount point is cleaned up; and
a repeated call, made on the host as the first call left it and finding the target still
absent, returns success again. -/
theorem NodeUnpublishVolume_absent_target
    (d : Deps σ A) (req : NodeUnpublishVolumeRequest) (w : σ) (err : GoError)
    (hid : req.volumeId ≠ "") (htarget : req.targetPath ≠ "")
    (hstat : (d.OsStat req.targetPath w).1 = .error err) (habsent : err.isNotExist = true) :
    (NodeUnpublishVolume d req).result w = .ok () ∧
    (NodeUnpublishVolume d req).trace w =
      [.OsStat req.targetPath (.error err),
       .Remove (d.Join d.LegacyDeviceDirectory req.volumeId)
         (d.Remove (d.Join d.LegacyDeviceDirectory req.volumeId)
           (d.OsStat req.targetPath w).2).1] ∧
    (∀ p c r, Event.CleanupMountPoint p c r ∉ (NodeUnpublishVolume d req).trace w) ∧
    (∀ err2, (d.OsStat req.targetPath ((NodeUnpublishVolume d req).final w)).1 = .error err2 →
      err2.isNotExist = true →
      (NodeUnpublishVolume d req).result ((NodeUnpublishVolume d req).final w) = .ok ()) := by
  have key : ∀ (w : σ) (err : GoError), (d.OsStat req.targetPath w).1 = .error err →
      err.isNotExist = true →
      (NodeUnpublishVolume d req).result w = .ok () ∧
      (NodeUnpublishVolume d req).trace w =
        [.OsStat req.targetPath (.error err),
         .Remove (d.Join d.LegacyDeviceDirectory req.volumeId)
           (d.Remove (d.Join d.LegacyDeviceDirectory req.volumeId)
             (d.OsStat req.targetPath w).2).1] := by
    intro w err hstat habsent
    unfold NodeUnpublishVolume
    simp only [if_neg hid, if_neg htarget, Sys.trace_bind, Sys.result_bind, Sys.final_bind,
      Sys.trace_call, Sys.result_call, Sys.final_call, hstat, habsent, if_true,
      Sys.trace_pure, Sys.result_pure]
    simp
  obtain ⟨h1, h2⟩ := key w err hstat habsent
  refine ⟨h1, h2, ?_, fun err2 hs2 ha2 => (key _ err2 hs2 ha2).1⟩
  intro p c r
  rw [h2]
  simp

/-- C10 at `absentHost`, where the target is absent and the removal of the legacy device
path fails: the unpublish succeeds all the same. -/
theorem NodeUnpublishVolume_absent_target_witness :
    (absentHost.OsStat "/mnt/v1" ()).1 = .error enoent ∧ enoent.isNotExist = true ∧
    (NodeUnpublishVolume absentHost ⟨"v1", "/mnt/v1"⟩).result () = .ok () ∧
    (NodeUnpublishVolume absentHost ⟨"v1", "/mnt/v1"⟩).trace () =
      [.OsStat "/mnt/v1" (.error enoent), .Remove "/dev/topolvm/v1" (some ioFailure)] :=
  ⟨rfl, rfl,
   (NodeUnpublishVolume_absent_target absentHost ⟨"v1", "/mnt/v1"⟩ () enoent
      (by decide) (by decide) rfl rfl).1,
   (NodeUnpublishVolume_absent_target absentHost ⟨"v1", "/mnt/v1"⟩ () enoent
      (by decide) (by decide) rfl rfl).2.1⟩

/-! ## LVMD start-up: the device classes are checked before the socket is touched -/

section BootLemmas

variable {α β : Type}

theorem Boot.boot_trace_bind (m : Boot σ V α) (f : α → Boot σ V β) (w : σ) :
    (m >>= f).trace w = m.trace w ++ (f (m.result w)).trace (m.final w) := rfl

theorem Boot.boot_result_bind (m : Boot σ V α) (f : α → Boot σ V β) (w : σ) :
    (m >>= f).result w = (f (m.result w)).result (m.final w) := rfl

theorem Boot.boot_final_bind (m : Boot σ V α) (f : α → Boot σ V β) (w : σ) :
    (m >>= f).final w = (f (m.result w)).final (m.final w) := rfl

theorem Boot.boot_trace_pure (a : α) (w : σ) : (pure a : Boot σ V α).trace w = [] := rfl

theorem Boot.boot_result_pure (a : α) (w : σ) : (pure a : Boot σ V α).result w = a := rfl

theorem Boot.boot_final_pure (a : α) (w : σ) : (pure a : Boot σ V α).final w = w := rfl

theorem Boot.boot_trace_call (op : σ → α × σ) (ev : α → LvmdEvent V) (w : σ) :
    (Boot.call op ev : Boot σ V α).trace w = [ev (op w).1] := rfl

theorem Boot.boot_result_call (op : σ → α × σ) (ev : α → LvmdEvent V) (w : σ) :
    (Boot.call op ev : Boot σ V α).result w = (op w).1 := rfl

theorem Boot.boot_final_call (op : σ → α × σ) (ev : α → LvmdEvent V) (w : σ) :
    (Boot.call op ev : Boot σ V α).final w = (op w).2 := rfl

end BootLemmas

/-- Every call of the device-class loop is a `FindPool` with the result the host gave in
some state. -/
theorem checkDeviceClasses_trace (d : LvmdDeps σ V) (vgs : List V) (dcs : List DeviceClass)
    (w : σ) : ∀ e ∈ (checkDeviceClasses d vgs dcs).trace w,
      ∃ vg name w1, e = .FindPool vg name (d.FindPool vg name w1).1 := by
  induction dcs generalizing w with
  | nil => intro e he; simp [checkDeviceClasses, Boot.boot_trace_pure] at he
  | cons dc rest ih =>
    intro e he
    unfold checkDeviceClasses at he
    split at he
    · exact absurd he (List.not_mem_nil _)
    · split at he
      · split at he
        · exact absurd he (List.not_mem_nil _)
        · rw [Boot.boot_trace_bind, Boot.boot_trace_call, Boot.boot_result_call, Boot.boot_final_call] at he
          rcases List.mem_append.mp he with h | h
          · exact ⟨_, _, _, List.mem_singleton.mp h⟩
          · split at h
            · exact absurd h (List.not_mem_nil _)
            · exact ih _ e h
      · exact ih _ e he

/-- When the device-class loop runs to its end, every class has its volume group found and
every thin class has its pool found by a logged `FindPool`. -/
theorem checkDeviceClasses_none (d : LvmdDeps σ V) (vgs : List V) (dcs : List DeviceClass)
    (w : σ) (h : (checkDeviceClasses d vgs dcs).result w = none) :
    ∀ dc ∈ dcs, ∃ vg, d.SearchVolumeGroupList vgs dc.volumeGroup = .ok vg ∧
      (dc.type = TypeThin → ∃ pool, dc.thinPoolConfig = some pool ∧
        LvmdEvent.FindPool vg pool.name none ∈ (checkDeviceClasses d vgs dcs).trace w) := by
  induction dcs generalizing w with
  | nil => intro dc hdc; exact absurd hdc (List.not_mem_nil _)
  | cons c rest ih =>
    intro dc hdc
    unfold checkDeviceClasses at h ⊢
    split at h
    · exact absurd h (by simp [Boot.boot_result_pure])
    · rename_i vg hvg
      try simp only [hvg]
      split at h
      · rename_i hthin
        try simp only [if_pos hthin]
        split at h
        · exact absurd h (by simp [Boot.boot_result_pure])
        · rename_i pool hpool
          try simp only [hpool]
          rw [Boot.boot_result_bind, Boot.boot_result_call, Boot.boot_final_call] at h
          rw [Boot.boot_trace_bind, Boot.boot_trace_call, Boot.boot_result_call, Boot.boot_final_call]
          split at h
          · exact absurd h (by simp [Boot.boot_result_pure])
          · rename_i hfound
            try simp only [hfound]
            rcases List.mem_cons.mp hdc with rfl | hrest
            · exact ⟨vg, hvg, fun _ => ⟨pool, hpool, List.mem_append_left _ (List.mem_singleton.mpr rfl)⟩⟩
            · obtain ⟨vg2, hvg2, hp2⟩ := ih _ h dc hrest
              exact ⟨vg2, hvg2, fun ht => by
                obtain ⟨p2, hp, hmem⟩ := hp2 ht
                exact ⟨p2, hp, List.mem_append_right _ hmem⟩⟩
      · rename_i hthick
        try simp only [if_neg hthick]
        rcases List.mem_cons.mp hdc with rfl | hrest
        · exact ⟨vg, hvg, fun ht => absurd ht hthick⟩
        · exact ih _ h dc hrest

/-- When every thin class has a thin-pool block, an error of the device-class loop is an
error handed over by a collaborator. -/
theorem checkDeviceClasses_some (d : LvmdDeps σ V) (vgs : List V) (dcs : List DeviceClass)
    (w : σ) (hpools : ∀ dc ∈ dcs, dc.type = TypeThin → dc.thinPoolConfig ≠ none)
    (e : Err) (h : (checkDeviceClasses d vgs dcs).result w = some e) :
    ∃ err, e = .passed err := by
  induction dcs generalizing w with
  | nil => exact absurd h (by simp [checkDeviceClasses, Boot.boot_result_pure])
  | cons c rest ih =>
    have hrest : ∀ dc ∈ rest, dc.type = TypeThin → dc.thinPoolConfig ≠ none :=
      fun dc hdc => hpools dc (List.mem_cons_of_mem _ hdc)
    unfold checkDeviceClasses at h
    split at h
    · rename_i err _
      exact ⟨err, by simpa [Boot.boot_result_pure] using h.symm⟩
    · split at h
      · rename_i hthin
        split at h
        · rename_i hnone
          exact absurd hnone (hpools c (List.mem_cons_self _ _) hthin)
        · rw [Boot.boot_result_bind, Boot.boot_result_call, Boot.boot_final_call] at h
          split at h
          · rename_i err _
            exact ⟨err, by simpa [Boot.boot_result_pure] using h.symm⟩
          · exact ih _ hrest h
      · exact ih _ hrest h


/-- The validator of `lvmdHost` accepts only configurations whose thin classes have a
thin-pool block. -/
theorem lvmdHost_validates (config : Config) (dcs : List DeviceClass)
    (h : (lvmdHost config).ValidateDeviceClasses dcs = none) :
    ∀ dc ∈ dcs, dc.type = TypeThin → dc.thinPoolConfig ≠ none := by
  intro dc hdc hthin hnone
  have hall : (dcs.all (fun dc => dc.type ≠ TypeThin || dc.thinPoolConfig.isSome)) = true := by
    by_contra hne
    simp only [lvmdHost, if_neg hne] at h
    exact absurd h (by simp)
  have hdc2 := List.all_eq_true.mp hall dc hdc
  simp [hthin, hnone] at hdc2

/-- C11. Let `subMain` load a configuration and list the host's volume groups, the
validator `ValidateDeviceClasses` rejecting, as the spec says, thin classes without a
thin-pool block.  If some device class names a volume group that `SearchVolumeGroupList`
does not find in the listing, or some thin class names a pool that `FindPool` does not find
in its volume group, then `subMain` returns an error and neither removes the socket file nor
listens on it.  Conversely, if the socket file is removed or listened on, then every class
has its volume group found and every thin class has its pool found by a logged `FindPool`. -/
theorem subMain_rejects_unknown_volume_groups (d : LvmdDeps σ V) (flags : Flags) (w : σ) (config : Config) (vgs : List V)
    (hload : (d.LoadConfFile flags.cfgFilePath (d.SetLVMPath flags.lvmPath w)).1 = .ok config)
    (hlist : (d.ListVolumeGroups
      (d.LoadConfFile flags.cfgFilePath (d.SetLVMPath flags.lvmPath w)).2).1 = .ok vgs)
    (hvalidate : ∀ dcs, d.ValidateDeviceClasses dcs = none →
      ∀ dc ∈ dcs, dc.type = TypeThin → dc.thinPoolConfig ≠ none) :
    ((∃ dc ∈ config.deviceClasses,
        (∃ err, d.SearchVolumeGroupList vgs dc.volumeGroup = .error err) ∨
        (dc.type = TypeThin ∧ ∃ vg pool, d.SearchVolumeGroupList vgs dc.volumeGroup = .ok vg ∧
          dc.thinPoolConfig = some pool ∧ ∀ w1, (d.FindPool vg pool.name w1).1 ≠ none)) →
      (∃ err, (subMain d flags).result w = some (.passed err)) ∧
      (∀ p r, LvmdEvent.Remove p r ∉ (subMain d flags).trace w) ∧
      (∀ n a r, LvmdEvent.Listen n a r ∉ (subMain d flags).trace w)) ∧
    (((∃ p r, LvmdEvent.Remove p r ∈ (subMain d flags).trace w) ∨
      (∃ n a r, LvmdEvent.Listen n a r ∈ (subMain d flags).trace w)) →
      ∀ dc ∈ config.deviceClasses,
        ∃ vg, d.SearchVolumeGroupList vgs dc.volumeGroup = .ok vg ∧
          (dc.type = TypeThin → ∃ pool, dc.thinPoolConfig = some pool ∧
            LvmdEvent.FindPool vg pool.name none ∈ (subMain d flags).trace w)) := by
  -- the run up to the end of the device-class loop
  obtain ⟨w2, hw2⟩ : ∃ w2, (d.ListVolumeGroups
      (d.LoadConfFile flags.cfgFilePath (d.SetLVMPath flags.lvmPath w)).2).2 = w2 := ⟨_, rfl⟩
  have hloop := checkDeviceClasses_trace d vgs config.deviceClasses w2
  have hnone := checkDeviceClasses_none d vgs config.deviceClasses w2
  have hsome := checkDeviceClasses_some d vgs config.deviceClasses w2
  obtain ⟨lr, hlr⟩ : ∃ lr, (checkDeviceClasses d vgs config.deviceClasses).result w2 = lr :=
    ⟨_, rfl⟩
  obtain ⟨lt, hlt⟩ : ∃ lt, (checkDeviceClasses d vgs config.deviceClasses).trace w2 = lt :=
    ⟨_, rfl⟩
  rw [hlr] at hnone hsome
  rw [hlt] at hnone hloop
  obtain ⟨t, ht⟩ : ∃ t, (subMain d flags).trace w = t := ⟨_, rfl⟩
  obtain ⟨res, hr⟩ : ∃ res, (subMain d flags).result w = res := ⟨_, rfl⟩
  rw [ht, hr]
  have h := And.intro ht hr
  clear ht hr
  unfold subMain listenAndServe at h
  simp only [Boot.boot_trace_bind, Boot.boot_result_bind, Boot.boot_final_bind, Boot.boot_trace_call,
    Boot.boot_result_call, Boot.boot_final_call, Boot.boot_trace_pure, Boot.boot_result_pure, Boot.boot_final_pure,
    hload, hlist, hw2, hlr, hlt] at h
  have hnoSock : (∀ p r, LvmdEvent.Remove p r ∉ lt) ∧ (∀ n a r, LvmdEvent.Listen n a r ∉ lt) := by
    constructor
    · intro p r hmem
      obtain ⟨_, _, _, he⟩ := hloop _ hmem
      exact absurd he (by simp)
    · intro n a r hmem
      obtain ⟨_, _, _, he⟩ := hloop _ hmem
      exact absurd he (by simp)
  cases hv : d.ValidateDeviceClasses config.deviceClasses with
  | some err =>
    simp only [hv, Boot.boot_trace_pure, Boot.boot_result_pure, List.append_nil] at h
    obtain ⟨rfl, rfl⟩ := h
    refine ⟨fun _ => ⟨⟨err, rfl⟩, by simp, by simp⟩, fun hs => ?_⟩
    simp at hs
  | none =>
    simp only [hv, Boot.boot_trace_bind, Boot.boot_result_bind, Boot.boot_final_bind, Boot.boot_trace_call,
      Boot.boot_result_call, Boot.boot_final_call, hlist, hw2, hlr, hlt] at h
    cases lr with
    | some e =>
      simp only [Boot.boot_trace_pure, Boot.boot_result_pure, List.append_nil] at h
      obtain ⟨rfl, rfl⟩ := h
      obtain ⟨err, rfl⟩ := hsome (hvalidate _ hv) e rfl
      refine ⟨fun _ => ⟨⟨err, rfl⟩, ?_, ?_⟩, fun hs => ?_⟩
      · intro p r hmem
        simp only [List.mem_append, List.mem_singleton, reduceCtorEq, false_or] at hmem
        exact hnoSock.1 p r hmem
      · intro n a r hmem
        simp only [List.mem_append, List.mem_singleton, reduceCtorEq, false_or] at hmem
        exact hnoSock.2 n a r hmem
      · exfalso
        rcases hs with ⟨p, r, hmem⟩ | ⟨n, a, r, hmem⟩
        · simp only [List.mem_append, List.mem_singleton, reduceCtorEq, false_or] at hmem
          exact hnoSock.1 p r hmem
        · simp only [List.mem_append, List.mem_singleton, reduceCtorEq, false_or] at hmem
          exact hnoSock.2 n a r hmem
    | none =>
      have hall := hnone rfl
      obtain ⟨ht, -⟩ := h
      constructor
      · rintro ⟨dc, hdc, hbad⟩
        exfalso
        obtain ⟨vg, hvg, hthin⟩ := hall dc hdc
        rcases hbad with ⟨err, herr⟩ | ⟨htype, vg2, pool, hvg2, hpool, hnever⟩
        · rw [hvg] at herr
          exact absurd herr (by simp)
        · obtain ⟨pool2, hpool2, hmem⟩ := hthin htype
          rw [hvg] at hvg2
          rw [hpool] at hpool2
          cases hvg2
          cases hpool2
          obtain ⟨vg3, name3, w1, he⟩ := hloop _ hmem
          simp only [LvmdEvent.FindPool.injEq] at he
          obtain ⟨rfl, rfl, he3⟩ := he
          exact hnever w1 he3.symm
      · intro _ dc hdc
        obtain ⟨vg, hvg, hthin⟩ := hall dc hdc
        refine ⟨vg, hvg, fun htype => ?_⟩
        obtain ⟨pool, hpool, hmem⟩ := hthin htype
        refine ⟨pool, hpool, ?_⟩
        rw [← ht]
        simp only [List.mem_append, List.mem_singleton, reduceCtorEq, false_or]
        exact Or.inl hmem

/-- C11 at `lvmdHost`: with `unknownPoolConfig` the thin class names the pool `pool7`, which
`myvg2` does not have, and `subMain` returns an error without touching the socket; with
`goodConfig` the socket is set up and the pool `pool0` was looked up. -/
theorem subMain_rejects_unknown_volume_groups_witness :
    ((lvmdHost unknownPoolConfig).LoadConfFile defaultFlags.cfgFilePath
      ((lvmdHost unknownPoolConfig).SetLVMPath defaultFlags.lvmPath ())).1 =
        .ok unknownPoolConfig ∧
    ((lvmdHost unknownPoolConfig).ListVolumeGroups ()).1 =
      .ok [⟨"myvg1", []⟩, ⟨"myvg2", ["pool0"]⟩] ∧
    (∃ err, (subMain (lvmdHost unknownPoolConfig) defaultFlags).result () =
      some (.passed err)) ∧
    (∀ p r, LvmdEvent.Remove p r ∉ (subMain (lvmdHost unknownPoolConfig) defaultFlags).trace ()) ∧
    (∀ n a r, LvmdEvent.Listen n a r ∉
      (subMain (lvmdHost unknownPoolConfig) defaultFlags).trace ()) ∧
    (∀ dc ∈ goodConfig.deviceClasses, ∃ vg,
      (lvmdHost goodConfig).SearchVolumeGroupList [⟨"myvg1", []⟩, ⟨"myvg2", ["pool0"]⟩]
        dc.volumeGroup = .ok vg ∧
      (dc.type = TypeThin → ∃ pool, dc.thinPoolConfig = some pool ∧
        LvmdEvent.FindPool vg pool.name none ∈
          (subMain (lvmdHost goodConfig) defaultFlags).trace ())) :=
  have hbad := (subMain_rejects_unknown_volume_groups (lvmdHost unknownPoolConfig)
    defaultFlags () unknownPoolConfig [⟨"myvg1", []⟩, ⟨"myvg2", ["pool0"]⟩] rfl rfl
    (lvmdHost_validates unknownPoolConfig)).1
      ⟨⟨"fast", "myvg2", "thin", some ⟨"pool7"⟩⟩, by decide,
        Or.inr ⟨rfl, ⟨"myvg2", ["pool0"]⟩, ⟨"pool7"⟩, by decide, rfl, fun w1 => by cases w1; decide⟩⟩
  ⟨rfl, rfl, hbad.1, hbad.2.1, hbad.2.2,
   (subMain_rejects_unknown_volume_groups (lvmdHost goodConfig)
      defaultFlags () goodConfig [⟨"myvg1", []⟩, ⟨"myvg2", ["pool0"]⟩] rfl rfl
      (lvmdHost_validates goodConfig)).2
        (Or.inl ⟨"/run/topolvm/lvmd.sock", some enoent, by decide⟩)⟩

/-! ## Volume statistics: the usage of a directory volume -/

theorem int64_eq_self (z : Int) (h0 : -(2 ^ 63) ≤ z) (h1 : z < 2 ^ 63) : int64 z = z := by
  unfold int64
  omega

theorem uint64_eq_self (z : Int) (h0 : 0 ≤ z) (h1 : z < 2 ^ 64) : uint64 z = z := by
  unfold uint64
  omega
/-- On a directory volume path, where `Statfs` succeeded, the usage of a successful response
is the list built from the filesystem report. -/
theorem NodeGetVolumeStats_usage_eq (d : Deps σ A) (req : NodeGetVolumeStatsRequest) (w : σ)
    (resp : NodeGetVolumeStatsResponse) (sfs : Statfs_t)
    (hstatfs : Event.Statfs req.volumePath (.ok sfs) ∈ (NodeGetVolumeStats d req).trace w)
    (hok : (NodeGetVolumeStats d req).result w = .ok resp) :
    resp.usage = statfsUsage sfs := by
  revert hstatfs hok
  unfold NodeGetVolumeStats getLvFromContext
  simp only []
  repeat' (first
    | split
    | simp only [Sys.trace_bind, Sys.result_bind, Sys.final_bind, Sys.trace_call,
        Sys.result_call, Sys.final_call, Sys.trace_pure, Sys.result_pure, Sys.final_pure])
  all_goals simp_all [Sys.result_pure]
  all_goals (intro hs hresp; subst hresp; subst hs; rfl)

/-- For a report with `bfree ≤ blocks`, `ffree ≤ files`, a non-negative fragment size, a byte
total below `2^63` and an inode total below `2^63`, no 64-bit operation of `statfsUsage`
wraps. -/
theorem statfsUsage_exact (sfs : Statfs_t)
    (hb : sfs.bfree ≤ sfs.blocks) (hf : sfs.ffree ≤ sfs.files) (hfr : 0 ≤ sfs.frsize)
    (htotal : (sfs.blocks : Int) * sfs.frsize < 2 ^ 63) (hfiles : sfs.files < 2 ^ 63) :
    statfsUsage sfs =
      (if sfs.blocks > 0 then
        [{ unit := .BYTES,
           total := (sfs.blocks : Int) * sfs.frsize,
           used := ((sfs.blocks : Int) - sfs.bfree) * sfs.frsize,
           available := int64 (int64 sfs.bavail * int64 sfs.frsize) }]
       else []) ++
      (if sfs.files > 0 then
        [{ unit := .INODES,
           total := (sfs.files : Int),
           used := (sfs.files : Int) - sfs.ffree,
           available := (sfs.ffree : Int) }]
       else []) := by
  have hfilesI : (sfs.files : Int) < 2 ^ 63 := by exact_mod_cast hfiles
  have hffree : (sfs.ffree : Int) ≤ sfs.files := by exact_mod_cast hf
  have hbfree : (sfs.bfree : Int) ≤ sfs.blocks := by exact_mod_cast hb
  have e1 : int64 (sfs.files : Int) = sfs.files := int64_eq_self _ (by omega) hfilesI
  have e2 : int64 (sfs.ffree : Int) = sfs.ffree := int64_eq_self _ (by omega) (by omega)
  have e3 : int64 (uint64 ((sfs.files : Int) - sfs.ffree)) = (sfs.files : Int) - sfs.ffree := by
    rw [uint64_eq_self _ (by omega) (by omega), int64_eq_self _ (by omega) (by omega)]
  have e4 : int64 (int64 (sfs.blocks : Int) * int64 sfs.frsize) = (sfs.blocks : Int) * sfs.frsize ∧
      int64 (int64 (uint64 ((sfs.blocks : Int) - sfs.bfree)) * int64 sfs.frsize) =
        ((sfs.blocks : Int) - sfs.bfree) * sfs.frsize := by
    rcases lt_or_ge 0 sfs.frsize with hpos | hzero
    · have hblocks : (sfs.blocks : Int) < 2 ^ 63 := by nlinarith
      have hused0 : 0 ≤ ((sfs.blocks : Int) - sfs.bfree) * sfs.frsize :=
        mul_nonneg (by omega) hfr
      have hused1 : ((sfs.blocks : Int) - sfs.bfree) * sfs.frsize ≤ (sfs.blocks : Int) * sfs.frsize :=
        mul_le_mul_of_nonneg_right (by omega) hfr
      by_cases hbz : sfs.blocks = 0
      · have hbf : sfs.bfree = 0 := by omega
        simp [hbz, hbf, int64, uint64]
      · have hfrlt : sfs.frsize < 2 ^ 63 := by
          have : (1 : Int) ≤ sfs.blocks := by omega
          nlinarith
        rw [int64_eq_self (sfs.blocks : Int) (by omega) hblocks, int64_eq_self sfs.frsize (by omega) hfrlt,
          uint64_eq_self _ (by omega) (by omega), int64_eq_self ((sfs.blocks : Int) - sfs.bfree) (by omega) (by omega),
          int64_eq_self _ (by omega) htotal, int64_eq_self _ (by omega) (by omega)]
        exact ⟨rfl, rfl⟩
    · have hz : sfs.frsize = 0 := by omega
      simp [hz, int64]
  unfold statfsUsage
  simp only [e1, e2, e3, e4.1, e4.2]

/-- When the attribute string parses, `getVolumeCondition` succeeds with the condition that
the health verification of the parsed attribute decides. -/
theorem getVolumeCondition_of_parsed (d : Deps σ A) (lv : LogicalVolume) (attr : A)
    (hparse : d.ParsedLVAttr lv.attr = .ok attr) :
    getVolumeCondition d lv = .ok
      (match d.VerifyHealth attr with
       | some err => { abnormal := true, message := err.text }
       | none => { abnormal := false, message := "volume is healthy and operating normally" }) := by
  unfold getVolumeCondition
  rw [hparse]
  simp only []
  cases h : d.VerifyHealth attr <;> rfl

/-- On a directory volume path, where `Statfs` succeeded, the LV listing succeeded and holds
the volume, and the condition of that volume is derived, `NodeGetVolumeStats` answers with
the usage built from the filesystem report and with that condition. -/
theorem NodeGetVolumeStats_directory_response (d : Deps σ A) (req : NodeGetVolumeStatsRequest)
    (w : σ) (sfs : Statfs_t) (deviceClass : String) (volumes : List LogicalVolume)
    (lv : LogicalVolume) (cond : VolumeCondition)
    (hstatfs : Event.Statfs req.volumePath (.ok sfs) ∈ (NodeGetVolumeStats d req).trace w)
    (hlist : Event.GetLVList deviceClass (.ok volumes) ∈ (NodeGetVolumeStats d req).trace w)
    (hfind : findVolumeByID volumes req.volumeId = some lv)
    (hcond : getVolumeCondition d lv = .ok cond) :
    (NodeGetVolumeStats d req).result w =
      .ok { usage := statfsUsage sfs, volumeCondition := some cond } := by
  revert hstatfs hlist
  unfold NodeGetVolumeStats getLvFromContext
  simp only []
  repeat' (first
    | split
    | simp only [Sys.trace_bind, Sys.result_bind, Sys.final_bind, Sys.trace_call,
        Sys.result_call, Sys.final_call, Sys.trace_pure, Sys.result_pure, Sys.final_pure])
  all_goals simp_all [Sys.result_pure]
  all_goals (intro h1 _ h3; subst h1 h3; simp_all)
/-- C12 as stated fails.  On `hugeInodesHost` the report has `bfree ≤ blocks`,
`ffree ≤ files` and `blocks*frsize < 2^63`, yet the INODES entry has total and used
`-2^63`: the total is not `files` and the used amount is negative.  On `negativeFrsizeHost`
the same side conditions hold and the BYTES entry has total `-2` and used `-1`.  On
`badAttrHost` the statfs and the LV lookup succeed, yet no usage list is returned at all:
the attribute string of the volume does not parse and the call fails with `Internal`. -/
theorem NodeGetVolumeStats_usage_bounds_counterexample :
    (hugeInodesStatfs.bfree ≤ hugeInodesStatfs.blocks ∧
     hugeInodesStatfs.ffree ≤ hugeInodesStatfs.files ∧
     (hugeInodesStatfs.blocks : Int) * hugeInodesStatfs.frsize < 2 ^ 63) ∧
    (NodeGetVolumeStats hugeInodesHost ⟨"v1", "/mnt/v1"⟩).result () =
      .ok { usage := [{ available := 0, total := -(2 ^ 63), used := -(2 ^ 63), unit := .INODES }],
            volumeCondition := some ⟨false, "volume is healthy and operating normally"⟩ } ∧
    (-(2 ^ 63) : Int) ≠ (hugeInodesStatfs.files : Int) ∧ ¬ (0 ≤ (-(2 ^ 63) : Int)) ∧
    (negativeFrsizeStatfs.bfree ≤ negativeFrsizeStatfs.blocks ∧
     negativeFrsizeStatfs.ffree ≤ negativeFrsizeStatfs.files ∧
     (negativeFrsizeStatfs.blocks : Int) * negativeFrsizeStatfs.frsize < 2 ^ 63) ∧
    (NodeGetVolumeStats negativeFrsizeHost ⟨"v1", "/mnt/v1"⟩).result () =
      .ok { usage := [{ available := -1, total := -2, used := -1, unit := .BYTES }],
            volumeCondition := some ⟨false, "volume is healthy and operating normally"⟩ } ∧
    ¬ (0 ≤ (-1 : Int)) ∧
    (NodeGetVolumeStats badAttrHost ⟨"v1", "/mnt/v1"⟩).trace () =
      [.Stat "/mnt/v1" (.ok ⟨S_IFDIR ||| 0o755⟩),
       .Statfs "/mnt/v1" (.ok ⟨100, 40, 30, 10, 4, 4096⟩),
       .GetVolume "v1" (.ok ⟨"ssd"⟩), .GetLVList "ssd" (.ok [lv1])] ∧
    findVolumeByID [lv1] "v1" = some lv1 ∧
    (NodeGetVolumeStats badAttrHost ⟨"v1", "/mnt/v1"⟩).result () =
      .error (.status .Internal
        "failed to parse attributes returned from logical volume service: -wi-ao---- is an invalid length lv_attr"
        []) := by
  decide

/-- C12, amended. For a directory volume path with a successful statfs, a successful LV
lookup (the listing succeeds and holds the volume) and an attribute string that parses,
`NodeGetVolumeStats` returns a response whose usage list is a BYTES entry exactly when
`blocks > 0`, followed by an INODES entry exactly when `files > 0`, with the fields the code
computes in wrapping 64-bit arithmetic.  Whenever `bfree ≤ blocks`, `ffree ≤ files`,
`0 ≤ frsize`, `blocks*frsize < 2^63` and `files < 2^63`, the totals and used amounts are the
exact integers `blocks*frsize`, `(blocks - bfree)*frsize`, `files` and `files - ffree`, and
each entry satisfies `0 ≤ Used ≤ Total` and `Used = Total` minus the free amount. -/
theorem NodeGetVolumeStats_directory_usage (d : Deps σ A) (req : NodeGetVolumeStatsRequest) (w : σ) (sfs : Statfs_t)
    (deviceClass : String) (volumes : List LogicalVolume) (lv : LogicalVolume) (attr : A)
    (hstatfs : Event.Statfs req.volumePath (.ok sfs) ∈ (NodeGetVolumeStats d req).trace w)
    (hlist : Event.GetLVList deviceClass (.ok volumes) ∈ (NodeGetVolumeStats d req).trace w)
    (hfind : findVolumeByID volumes req.volumeId = some lv)
    (hparse : d.ParsedLVAttr lv.attr = .ok attr) :
    ∃ resp, (NodeGetVolumeStats d req).result w = .ok resp ∧
      resp.usage =
        (if sfs.blocks > 0 then
          [{ unit := .BYTES,
             total := int64 (int64 sfs.blocks * int64 sfs.frsize),
             used := int64 (int64 (uint64 (sfs.blocks - sfs.bfree)) * int64 sfs.frsize),
             available := int64 (int64 sfs.bavail * int64 sfs.frsize) }]
         else []) ++
        (if sfs.files > 0 then
          [{ unit := .INODES,
             total := int64 sfs.files,
             used := int64 (uint64 (sfs.files - sfs.ffree)),
             available := int64 sfs.ffree }]
         else []) ∧
      (sfs.bfree ≤ sfs.blocks → sfs.ffree ≤ sfs.files → 0 ≤ sfs.frsize →
        (sfs.blocks : Int) * sfs.frsize < 2 ^ 63 → sfs.files < 2 ^ 63 →
        resp.usage =
          (if sfs.blocks > 0 then
            [{ unit := .BYTES,
               total := (sfs.blocks : Int) * sfs.frsize,
               used := ((sfs.blocks : Int) - sfs.bfree) * sfs.frsize,
               available := int64 (int64 sfs.bavail * int64 sfs.frsize) }]
           else []) ++
          (if sfs.files > 0 then
            [{ unit := .INODES,
               total := (sfs.files : Int),
               used := (sfs.files : Int) - sfs.ffree,
               available := (sfs.ffree : Int) }]
           else []) ∧
        ∀ u ∈ resp.usage, 0 ≤ u.used ∧ u.used ≤ u.total ∧
          (u.unit = .BYTES → u.used = u.total - (sfs.bfree : Int) * sfs.frsize) ∧
          (u.unit = .INODES → u.used = u.total - (sfs.ffree : Int))) := by
  have hresp := NodeGetVolumeStats_directory_response d req w sfs deviceClass volumes lv _
    hstatfs hlist hfind (getVolumeCondition_of_parsed d lv attr hparse)
  refine ⟨_, hresp, rfl, fun hb hf hfr htotal hfiles => ?_⟩
  have hexact := statfsUsage_exact sfs hb hf hfr htotal hfiles
  refine ⟨hexact, ?_⟩
  show ∀ u ∈ statfsUsage sfs, _
  rw [hexact]
  have hffree : (sfs.ffree : Int) ≤ sfs.files := by exact_mod_cast hf
  have hbfree : (sfs.bfree : Int) ≤ sfs.blocks := by exact_mod_cast hb
  intro u hu
  rcases List.mem_append.mp hu with hu | hu
  · split at hu
    · rw [List.mem_singleton] at hu
      subst hu
      refine ⟨mul_nonneg (by omega) hfr, mul_le_mul_of_nonneg_right (by omega) hfr,
        fun _ => by ring, fun hunit => by simp at hunit⟩
    · exact absurd hu (List.not_mem_nil _)
  · split at hu
    · rw [List.mem_singleton] at hu
      subst hu
      exact ⟨by simp only; omega, by simp only; omega, fun hunit => by simp at hunit, fun _ => rfl⟩
    · exact absurd hu (List.not_mem_nil _)

/-- C12, amended, at `freshHost`: 100 blocks of 4096 bytes, 40 free; 10 inodes, 4 free; the
volume `v1` is listed and its attribute string parses. -/
theorem NodeGetVolumeStats_directory_usage_witness :
    Event.Statfs "/mnt/v1" (.ok ⟨100, 40, 30, 10, 4, 4096⟩) ∈
      (NodeGetVolumeStats freshHost ⟨"v1", "/mnt/v1"⟩).trace () ∧
    Event.GetLVList "ssd" (.ok [lv1]) ∈
      (NodeGetVolumeStats freshHost ⟨"v1", "/mnt/v1"⟩).trace () ∧
    findVolumeByID [lv1] "v1" = some lv1 ∧
    freshHost.ParsedLVAttr lv1.attr = .ok () ∧
    (∃ resp, (NodeGetVolumeStats freshHost ⟨"v1", "/mnt/v1"⟩).result () = .ok resp ∧
      resp.usage =
        [{ available := 122880, total := 409600, used := 245760, unit := .BYTES },
         { available := 4, total := 10, used := 6, unit := .INODES }] ∧
      ∀ u ∈ resp.usage, 0 ≤ u.used ∧ u.used ≤ u.total) := by
  obtain ⟨resp, hresp, husage, hexact⟩ :=
    NodeGetVolumeStats_directory_usage freshHost ⟨"v1", "/mnt/v1"⟩ ()
      ⟨100, 40, 30, 10, 4, 4096⟩ "ssd" [lv1] lv1 () (by decide) (by decide) (by decide) rfl
  have hbounds := (hexact (by decide) (by decide) (by decide) (by decide) (by decide)).2
  refine ⟨by decide, by decide, by decide, rfl, resp, hresp, ?_, fun u hu => ?_⟩
  · rw [husage]
    decide
  · exact ⟨(hbounds u hu).1, (hbounds u hu).2.1⟩

/-! ## Volume statistics: the file type of the volume path -/

/-- The directory test of `NodeGetVolumeStats` looks at one bit of the file type. -/
theorem land_S_IFDIR (mode : Nat) : mode &&& S_IFDIR = (mode &&& S_IFMT) &&& S_IFDIR := by
  rw [Nat.land_assoc]
  rfl

/-- A volume path that is no block device and whose mode has the `S_IFDIR` bit clear is
rejected with `Internal`, the stat being the only call. -/
theorem NodeGetVolumeStats_invalid_mode_bits (d : Deps σ A) (req : NodeGetVolumeStatsRequest) (w : σ) (st : Stat_t)
    (hid : req.volumeId ≠ "") (hpath : req.volumePath ≠ "")
    (hstat : (d.Stat req.volumePath w).1 = .ok st)
    (hblk : st.mode &&& S_IFMT ≠ S_IFBLK) (hdir : st.mode &&& S_IFDIR = 0) :
    (NodeGetVolumeStats d req).result w = .error (.status .Internal
      "invalid mode bits for %s: %d" [req.volumePath, toString st.mode]) ∧
    (NodeGetVolumeStats d req).trace w = [.Stat req.volumePath (.ok st)] := by
  unfold NodeGetVolumeStats
  simp only [if_neg hid, if_neg hpath, Sys.trace_bind, Sys.result_bind, Sys.final_bind,
    Sys.trace_call, Sys.result_call, Sys.final_call, hstat, if_neg hblk, if_pos hdir]
  exact ⟨rfl, rfl⟩

/-- A regular file, a character device, a FIFO and a symbolic link have the `S_IFDIR` bit of
their mode clear, and none of them is a block device. -/
theorem S_IFDIR_bit_clear (mode : Nat)
    (h : mode &&& S_IFMT = S_IFREG ∨ mode &&& S_IFMT = S_IFCHR ∨
      mode &&& S_IFMT = S_IFIFO ∨ mode &&& S_IFMT = S_IFLNK) :
    mode &&& S_IFMT ≠ S_IFBLK ∧ mode &&& S_IFDIR = 0 := by
  rw [land_S_IFDIR]
  rcases h with h | h | h | h <;> rw [h] <;> decide

/-- C13 fails for a socket.  On `socketHost` the volume path has file type `S_IFSOCK`, which
is neither block device nor directory, yet `NodeGetVolumeStats` calls `Statfs` on it, goes
on to the LV lookup and answers with the filesystem usage instead of `Internal`: the type
`S_IFSOCK` contains the bit `S_IFDIR` that the directory test looks at. -/
theorem NodeGetVolumeStats_socket_reaches_statfs :
    (S_IFSOCK ||| 0o755) &&& S_IFMT = S_IFSOCK ∧ S_IFSOCK ≠ S_IFBLK ∧ S_IFSOCK ≠ S_IFDIR ∧
    S_IFSOCK &&& S_IFDIR ≠ 0 ∧
    (NodeGetVolumeStats socketHost ⟨"v1", "/mnt/v1"⟩).trace () =
      [.Stat "/mnt/v1" (.ok ⟨S_IFSOCK ||| 0o755⟩),
       .Statfs "/mnt/v1" (.ok ⟨100, 40, 30, 10, 4, 4096⟩),
       .GetVolume "v1" (.ok ⟨"ssd"⟩), .GetLVList "ssd" (.ok [lv1])] ∧
    (NodeGetVolumeStats socketHost ⟨"v1", "/mnt/v1"⟩).result () =
      .ok { usage := [{ available := 122880, total := 409600, used := 245760, unit := .BYTES },
                      { available := 4, total := 10, used := 6, unit := .INODES }],
            volumeCondition := some ⟨false, "volume is healthy and operating normally"⟩ } := by
  decide

end Topolvm
